import Mathlib

/-!
Verification of the shader-graph texture-binding engine and compute-device
selection policy of `blender_render_script.py`, via a shallow embedding.

The embedding models:
  * the material node graph (nodes, directed links, the Principled BSDF root),
  * the role → shader-input resolution with per-role fallback lists,
  * `replace_texture_in_nodes` (texture binder),
  * `apply_textures_to_all_materials` (material walker with success/attempt tally),
  * the GPU backend-family probing loop and its CPU fallback.

External effects are modelled as explicit parameters: `fs : String → Bool` is
`os.path.exists`, `loadErr : String → Bool` says whether `bpy.data.images.load`
raises for a given path, and `probe : String → Option (List CDevice)` is the
device list produced by `cycles_prefs.get_devices()` after setting
`compute_device_type` (with `none` modelling a raised exception, which the
source catches per family).
-/

namespace BlenderRender

/-- The role → primary shader input mapping (`input_mapping` in the source).
An unknown texture key yields `none` (the source prints and returns). -/
def input_mapping (tex_key : String) : Option String :=
  if tex_key == "diffuse" then some "Base Color"
  else if tex_key == "normal" then some "Normal"
  else if tex_key == "roughness" then some "Roughness"
  else if tex_key == "specular" then some "Specular IOR Level"
  else none

/-- The per-role ordered fallback lists (`fallback_mapping` in the source);
`fallback_mapping.get(tex_key, [])` yields `[]` for unknown keys. -/
def fallback_mapping (tex_key : String) : List String :=
  if tex_key == "specular" then ["Metallic", "Specular", "Specular IOR Level"]
  else if tex_key == "diffuse" then ["Base Color", "Albedo"]
  else if tex_key == "roughness" then ["Roughness"]
  else if tex_key == "normal" then ["Normal"]
  else []

/-- The `for fallback in fallback_mapping.get(tex_key, []): if fallback in
principled_node.inputs: ... break / else: return` loop: first candidate
present among the available inputs, else failure. -/
def firstPresent : List String → List String → Option String
  | [], _ => none
  | c :: rest, inputs => if inputs.contains c then some c else firstPresent rest inputs

/-- Input resolution as performed by `replace_texture_in_nodes` (lines 72-106):
primary name if available, else the first present fallback, else failure. -/
def resolveInput (tex_key : String) (inputs : List String) : Option String :=
  match input_mapping tex_key with
  | none => none
  | some target =>
    if inputs.contains target then some target
    else firstPresent (fallback_mapping tex_key) inputs

theorem firstPresent_eq_find? (cands inputs : List String) :
    firstPresent cands inputs = cands.find? (fun c => inputs.contains c) := by
  induction cands with
  | nil => rfl
  | cons c rest ih =>
    cases h : inputs.contains c with
    | true =>
      rw [List.find?_cons_of_pos _ h]
      simp only [firstPresent, h, if_true]
    | false =>
      rw [List.find?_cons_of_neg _ (by simp only [h]; exact Bool.false_ne_true)]
      simp only [firstPresent, h, Bool.false_eq_true, if_false, ih]

/-- C2: input resolution is deterministic with a fixed candidate order: when
the primary input name is absent, the per-role ordered fallback list is
consulted and the first name present is chosen; in particular, a shader root
exposing "Specular" but neither "Specular IOR Level" nor "Metallic" resolves
the specular role to "Specular". -/
theorem C2_input_fallback_determinism (tex_key target : String) (inputs : List String)
    (hmap : input_mapping tex_key = some target)
    (habs : inputs.contains target = false) :
    resolveInput tex_key inputs = (fallback_mapping tex_key).find? (fun c => inputs.contains c) ∧
    (inputs.contains "Specular" = true → inputs.contains "Specular IOR Level" = false →
      inputs.contains "Metallic" = false →
      resolveInput "specular" inputs = some "Specular") := by
  constructor
  · simp only [resolveInput, hmap, habs, Bool.false_eq_true, if_false]
    exact firstPresent_eq_find? _ _
  · intro hs hiorl hmet
    have h1 : input_mapping "specular" = some "Specular IOR Level" := rfl
    have h2 : fallback_mapping "specular" = ["Metallic", "Specular", "Specular IOR Level"] := rfl
    simp only [resolveInput, h1, h2, firstPresent, hs, hiorl, hmet, Bool.false_eq_true,
      if_false, if_true]

theorem C2_witness :
    input_mapping "specular" = some "Specular IOR Level" ∧
    (["Specular"] : List String).contains "Specular IOR Level" = false ∧
    resolveInput "specular" ["Specular"] =
      (fallback_mapping "specular").find? (fun c => (["Specular"] : List String).contains c) ∧
    resolveInput "specular" ["Specular"] = some "Specular" := by
  refine ⟨by decide, by decide, ?_, ?_⟩
  · exact (C2_input_fallback_determinism "specular" "Specular IOR Level" ["Specular"]
      (by decide) (by decide)).1
  · exact (C2_input_fallback_determinism "specular" "Specular IOR Level" ["Specular"]
      (by decide) (by decide)).2 (by decide) (by decide) (by decide)

/-! ## Compute-device selection (source lines 282-332)

`cycles_prefs` state is modelled by `GpuState`; the effect of
`cycles_prefs.compute_device_type = t; cycles_prefs.get_devices()` is the
environment function `probe : String → Option (List CDevice)`: `some devs`
is the refreshed device list, `none` models a raised exception (in which case
the per-family `except` clause fires and the preference state is left as it
was). -/

structure CDevice where
  name : String
  dtype : String
  use : Bool
deriving DecidableEq

structure GpuState where
  compute_device_type : String
  devices : List CDevice
  cycles_device : String
  denoiser : String
deriving DecidableEq

/-- `available_types = ['OPTIX', 'CUDA', 'OPENCL', 'HIP']` (line 282). -/
def available_types : List String := ["OPTIX", "CUDA", "OPENCL", "HIP"]

/-- One iteration of the `for device_type in available_types` loop (lines
285-321): set the compute device type and re-enumerate; filter the device
list to the family; if non-empty, enable exactly that family's devices, set
the scene device to GPU, pick the denoiser when denoising is requested, and
report success.  A probe exception leaves the state unchanged and reports
failure (the `except ... continue` clause). -/
def tryFamily (use_denoising : Bool) (probe : String → Option (List CDevice))
    (st : GpuState) (t : String) : GpuState × Bool :=
  match probe t with
  | none => (st, false)
  | some devs =>
    let st1 : GpuState := { st with compute_device_type := t, devices := devs }
    if (devs.filter (fun d => d.dtype == t)).isEmpty then (st1, false)
    else
      ({ st1 with
          devices := devs.map (fun d => { d with use := d.dtype == t }),
          cycles_device := "GPU",
          denoiser :=
            if t == "OPTIX" && use_denoising then "OPTIX"
            else if use_denoising then "OPENIMAGEDENOISE"
            else st1.denoiser }, true)

/-- The family loop with its `break` on first success; the second component
is the `gpu_found` flag. -/
def gpuLoop (use_denoising : Bool) (probe : String → Option (List CDevice)) :
    List String → GpuState → GpuState × Bool
  | [], st => (st, false)
  | t :: rest, st =>
    if (tryFamily use_denoising probe st t).2 then
      ((tryFamily use_denoising probe st t).1, true)
    else gpuLoop use_denoising probe rest (tryFamily use_denoising probe st t).1

/-- The `if not gpu_found` fallback (lines 323-332): software device type,
CPU rendering, CPU devices enabled and every other device disabled. -/
def cpuFallback (st : GpuState) : GpuState :=
  { st with
      compute_device_type := "NONE",
      cycles_device := "CPU",
      devices := st.devices.map (fun d => { d with use := d.dtype == "CPU" }) }

/-- The whole `if use_gpu:` configuration block (loop followed by fallback). -/
def configure_gpu (use_denoising : Bool) (probe : String → Option (List CDevice))
    (st : GpuState) : GpuState :=
  if (gpuLoop use_denoising probe available_types st).2 then
    (gpuLoop use_denoising probe available_types st).1
  else cpuFallback (gpuLoop use_denoising probe available_types st).1

/-- A family contributes zero devices: either its probe raises, or the
refreshed list filtered to the family is empty. -/
def familyEmpty (probe : String → Option (List CDevice)) (t : String) : Prop :=
  probe t = none ∨ ∃ devs, probe t = some devs ∧ devs.filter (fun d => d.dtype == t) = []

/-- The state a winning family `t` leaves behind. -/
def winState (use_denoising : Bool) (st : GpuState) (t : String)
    (devs : List CDevice) : GpuState :=
  { compute_device_type := t,
    devices := devs.map (fun d => { d with use := d.dtype == t }),
    cycles_device := "GPU",
    denoiser :=
      if t == "OPTIX" && use_denoising then "OPTIX"
      else if use_denoising then "OPENIMAGEDENOISE"
      else st.denoiser }

theorem all_use_cpu (l : List CDevice) :
    (l.map (fun d => { d with use := d.dtype == "CPU" })).all
      (fun d => d.use == (d.dtype == "CPU")) = true := by
  induction l with
  | nil => rfl
  | cons d rest ih => simp [List.all_cons, ih]

theorem tryFamily_of_empty (ud : Bool) (probe) (st : GpuState) (t : String)
    (h : familyEmpty probe t) :
    (tryFamily ud probe st t).2 = false ∧
    (tryFamily ud probe st t).1.denoiser = st.denoiser := by
  rcases h with h | ⟨devs, hp, hf⟩
  · simp [tryFamily, h]
  · simp [tryFamily, hp, hf]

theorem tryFamily_win (ud : Bool) (probe) (st : GpuState) (t : String)
    (devs : List CDevice) (hp : probe t = some devs)
    (hne : devs.filter (fun d => d.dtype == t) ≠ []) :
    tryFamily ud probe st t = (winState ud st t devs, true) := by
  have hE : (devs.filter (fun d => d.dtype == t)).isEmpty = false := by
    cases hEq : (devs.filter (fun d => d.dtype == t)).isEmpty
    · rfl
    · exact absurd (List.isEmpty_iff.mp hEq) hne
  simp [tryFamily, hp, hE, winState]

theorem gpuLoop_cons_win (ud : Bool) (probe) (st : GpuState) (t : String)
    (l2 : List String) (devs : List CDevice) (hp : probe t = some devs)
    (hne : devs.filter (fun d => d.dtype == t) ≠ []) :
    gpuLoop ud probe (t :: l2) st = (winState ud st t devs, true) := by
  simp [gpuLoop, tryFamily_win ud probe st t devs hp hne]

theorem gpuLoop_fail_all (ud : Bool) (probe) (ts : List String) (st : GpuState)
    (h : ∀ t ∈ ts, familyEmpty probe t) :
    (gpuLoop ud probe ts st).2 = false ∧
    (gpuLoop ud probe ts st).1.denoiser = st.denoiser := by
  induction ts generalizing st with
  | nil => exact ⟨rfl, rfl⟩
  | cons x rest ih =>
    have hx := tryFamily_of_empty ud probe st x (h x (by simp))
    have ih' := ih (tryFamily ud probe st x).1 (fun y hy => h y (by simp [hy]))
    simp only [gpuLoop, hx.1, Bool.false_eq_true, if_false]
    exact ⟨ih'.1, ih'.2.trans hx.2⟩

theorem gpuLoop_fail_head (ud : Bool) (probe) (l1 : List String) (st : GpuState)
    (h : ∀ t ∈ l1, familyEmpty probe t) :
    ∃ st', (∀ ts, gpuLoop ud probe (l1 ++ ts) st = gpuLoop ud probe ts st') ∧
      st'.denoiser = st.denoiser := by
  induction l1 generalizing st with
  | nil => exact ⟨st, fun ts => rfl, rfl⟩
  | cons x rest ih =>
    have hx := tryFamily_of_empty ud probe st x (h x (by simp))
    obtain ⟨st', h1, h2⟩ := ih (tryFamily ud probe st x).1 (fun y hy => h y (by simp [hy]))
    refine ⟨st', fun ts => ?_, h2.trans hx.2⟩
    show gpuLoop ud probe (x :: (rest ++ ts)) st = _
    simp only [gpuLoop, hx.1, Bool.false_eq_true, if_false]
    exact h1 ts

/-- C4: when GPU rendering is requested but every backend family yields an
empty device list (families whose probe raises counting as zero devices),
device selection falls back to the software choice — compute device type
`NONE`, scene device `CPU`, all CPU devices enabled and all others disabled —
and never raises (the configuration function is total). -/
theorem C4_device_fallback (ud : Bool) (probe : String → Option (List CDevice))
    (st : GpuState) (h : ∀ t ∈ available_types, familyEmpty probe t) :
    (configure_gpu ud probe st).compute_device_type = "NONE" ∧
    (configure_gpu ud probe st).cycles_device = "CPU" ∧
    (configure_gpu ud probe st).devices.all
      (fun d => d.use == (d.dtype == "CPU")) = true := by
  have hl := gpuLoop_fail_all ud probe available_types st h
  simp only [configure_gpu, hl.1, Bool.false_eq_true, if_false]
  exact ⟨rfl, rfl, all_use_cpu _⟩

theorem C4_witness :
    (configure_gpu true (fun _ => none)
      { compute_device_type := "NONE",
        devices := [{ name := "cpu0", dtype := "CPU", use := false },
                    { name := "gpu0", dtype := "CUDA", use := true }],
        cycles_device := "CPU", denoiser := "NLM" }).compute_device_type = "NONE" ∧
    (configure_gpu true (fun _ => none)
      { compute_device_type := "NONE",
        devices := [{ name := "cpu0", dtype := "CPU", use := false },
                    { name := "gpu0", dtype := "CUDA", use := true }],
        cycles_device := "CPU", denoiser := "NLM" }).cycles_device = "CPU" ∧
    (configure_gpu true (fun _ => none)
      { compute_device_type := "NONE",
        devices := [{ name := "cpu0", dtype := "CPU", use := false },
                    { name := "gpu0", dtype := "CUDA", use := true }],
        cycles_device := "CPU", denoiser := "NLM" }).devices.all
      (fun d => d.use == (d.dtype == "CPU")) = true :=
  C4_device_fallback true (fun _ => none) _ (fun _ _ => Or.inl rfl)

/-- C5: with GPU rendering requested, backend families are probed in the
fixed priority order and the first family with at least one device wins:
every device of that family is enabled and every other device disabled, the
scene device is set to GPU, the compute device type records the family, and
the outcome is already determined by the loop truncated at the winning
family (no later family is considered). -/
theorem C5_first_nonempty_family_wins (ud : Bool)
    (probe : String → Option (List CDevice)) (st : GpuState)
    (l1 l2 : List String) (t : String) (devs : List CDevice)
    (hsplit : available_types = l1 ++ t :: l2)
    (hfail : ∀ x ∈ l1, familyEmpty probe x)
    (hp : probe t = some devs)
    (hne : devs.filter (fun d => d.dtype == t) ≠ []) :
    (configure_gpu ud probe st).devices =
      devs.map (fun d => { d with use := d.dtype == t }) ∧
    (configure_gpu ud probe st).cycles_device = "GPU" ∧
    (configure_gpu ud probe st).compute_device_type = t ∧
    gpuLoop ud probe available_types st = gpuLoop ud probe (l1 ++ [t]) st := by
  obtain ⟨st', h1, h2⟩ := gpuLoop_fail_head ud probe l1 st hfail
  have hwin := gpuLoop_cons_win ud probe st' t l2 devs hp hne
  have hwin1 := gpuLoop_cons_win ud probe st' t [] devs hp hne
  have hfull : gpuLoop ud probe available_types st = (winState ud st' t devs, true) := by
    rw [hsplit, h1 (t :: l2), hwin]
  constructor
  · simp only [configure_gpu, hfull, if_true, winState]
  constructor
  · simp only [configure_gpu, hfull, if_true]; rfl
  constructor
  · simp only [configure_gpu, hfull, if_true]; rfl
  · rw [hfull, h1 [t], hwin1]

theorem C5_witness :
    (configure_gpu true
      (fun x => if x == "CUDA" then some [{ name := "gpu0", dtype := "CUDA", use := false }]
                else none)
      { compute_device_type := "NONE", devices := [], cycles_device := "CPU",
        denoiser := "NLM" }).devices =
      [{ name := "gpu0", dtype := "CUDA", use := true }] ∧
    (configure_gpu true
      (fun x => if x == "CUDA" then some [{ name := "gpu0", dtype := "CUDA", use := false }]
                else none)
      { compute_device_type := "NONE", devices := [], cycles_device := "CPU",
        denoiser := "NLM" }).cycles_device = "GPU" ∧
    (configure_gpu true
      (fun x => if x == "CUDA" then some [{ name := "gpu0", dtype := "CUDA", use := false }]
                else none)
      { compute_device_type := "NONE", devices := [], cycles_device := "CPU",
        denoiser := "NLM" }).compute_device_type = "CUDA" := by
  have h := C5_first_nonempty_family_wins true
    (fun x => if x == "CUDA" then some [{ name := "gpu0", dtype := "CUDA", use := false }]
              else none)
    { compute_device_type := "NONE", devices := [], cycles_device := "CPU",
      denoiser := "NLM" }
    ["OPTIX"] ["OPENCL", "HIP"] "CUDA" [{ name := "gpu0", dtype := "CUDA", use := false }]
    rfl (by intro x hx; simp at hx; subst hx; exact Or.inl rfl) rfl (by decide)
  exact ⟨h.1, h.2.1, h.2.2.1⟩

/-- C6: when a GPU family is selected and denoising is requested, the
denoiser is family-specific — the first-priority family (OPTIX) gets its
native denoiser and every other family gets OpenImageDenoise; when denoising
is not requested, the denoiser setting is left unchanged. -/
theorem C6_denoiser_choice (probe : String → Option (List CDevice))
    (st : GpuState) (l1 l2 : List String) (t : String) (devs : List CDevice)
    (hsplit : available_types = l1 ++ t :: l2)
    (hfail : ∀ x ∈ l1, familyEmpty probe x)
    (hp : probe t = some devs)
    (hne : devs.filter (fun d => d.dtype == t) ≠ []) :
    (configure_gpu true probe st).denoiser =
      (if t == "OPTIX" then "OPTIX" else "OPENIMAGEDENOISE") ∧
    (configure_gpu false probe st).denoiser = st.denoiser := by
  constructor
  · obtain ⟨st', h1, _⟩ := gpuLoop_fail_head true probe l1 st hfail
    have hfull : gpuLoop true probe available_types st = (winState true st' t devs, true) := by
      rw [hsplit, h1 (t :: l2), gpuLoop_cons_win true probe st' t l2 devs hp hne]
    simp only [configure_gpu, hfull, if_true, winState]
    cases hOpt : (t == "OPTIX") <;> simp [hOpt]
  · obtain ⟨st', h1, h2⟩ := gpuLoop_fail_head false probe l1 st hfail
    have hfull : gpuLoop false probe available_types st = (winState false st' t devs, true) := by
      rw [hsplit, h1 (t :: l2), gpuLoop_cons_win false probe st' t l2 devs hp hne]
    simp only [configure_gpu, hfull, if_true, winState]
    simpa using h2

theorem C6_witness :
    (configure_gpu true
      (fun x => if x == "CUDA" then some [{ name := "gpu0", dtype := "CUDA", use := false }]
                else none)
      { compute_device_type := "NONE", devices := [], cycles_device := "CPU",
        denoiser := "NLM" }).denoiser = "OPENIMAGEDENOISE" ∧
    (configure_gpu false
      (fun x => if x == "CUDA" then some [{ name := "gpu0", dtype := "CUDA", use := false }]
                else none)
      { compute_device_type := "NONE", devices := [], cycles_device := "CPU",
        denoiser := "NLM" }).denoiser = "NLM" := by
  have h := C6_denoiser_choice
    (fun x => if x == "CUDA" then some [{ name := "gpu0", dtype := "CUDA", use := false }]
              else none)
    { compute_device_type := "NONE", devices := [], cycles_device := "CPU",
      denoiser := "NLM" }
    ["OPTIX"] ["OPENCL", "HIP"] "CUDA" [{ name := "gpu0", dtype := "CUDA", use := false }]
    rfl (by intro x hx; simp at hx; subst hx; exact Or.inl rfl) rfl (by decide)
  exact ⟨h.1, h.2⟩

/-! ## Material node graphs and the texture binder (source lines 43-188)

Nodes carry an identity `nid`; Blender's in-place object mutation becomes
functional updates keyed on `nid`.  `links.new(out, in)` on a single-input
socket replaces any pre-existing link into that socket, so `linkNew` filters
the old links to the target socket and appends the new one.  Image datablocks
(`bpy.data.images`) are an explicit registry `List Image` with fresh ids
drawn from `nextImgId`.  `os.path.exists` is the parameter `fs`; a raising
`bpy.data.images.load` is the parameter `loadErr` (the surrounding
`try/except` returns `False`).  The source's bare `return` statements
(unknown key, unresolved input) yield Python `None`, which the caller only
truth-tests, so they are modelled as a `false` result. -/

structure GNode where
  nid : Nat
  ntype : String
  name : String
  inputNames : List String
  location : Int × Int
  image : Option Nat
deriving DecidableEq

structure GLink where
  fromNode : Nat
  fromSocket : String
  toNode : Nat
  toSocket : String
deriving DecidableEq

structure Graph where
  nodes : List GNode
  links : List GLink
  nextNodeId : Nat
deriving DecidableEq

structure Material where
  mname : String
  use_nodes : Bool
  graph : Graph
deriving DecidableEq

structure Image where
  iid : Nat
  filepath : String
  colorspace : String
deriving DecidableEq

/-- Outcome of one binder call: the truthiness of the returned value plus
the mutated material, image registry and fresh-id counter. -/
structure BindOut where
  ok : Bool
  mat : Material
  images : List Image
  nextImgId : Nat
deriving DecidableEq

def Graph.findNode (g : Graph) (i : Nat) : Option GNode :=
  g.nodes.find? (fun n => n.nid == i)

/-- Lines 52-56: first node of type `BSDF_PRINCIPLED`. -/
def findPrincipled (g : Graph) : Option GNode :=
  g.nodes.find? (fun n => n.ntype == "BSDF_PRINCIPLED")

/-- Lines 108-115: scan the links into the resolved input socket and take the
first whose upstream node is a `TEX_IMAGE` node. -/
def findConnectedTexAux (g : Graph) (pid : Nat) (target : String) :
    List GLink → Option GNode
  | [] => none
  | l :: rest =>
    if l.toNode == pid && l.toSocket == target then
      match g.findNode l.fromNode with
      | some n =>
        if n.ntype == "TEX_IMAGE" then some n
        else findConnectedTexAux g pid target rest
      | none => findConnectedTexAux g pid target rest
    else findConnectedTexAux g pid target rest

def findConnectedTexNode (g : Graph) (pid : Nat) (target : String) : Option GNode :=
  findConnectedTexAux g pid target g.links

/-- Lines 117-121: `nodes.new(type='ShaderNodeTexImage')` plus location and
name; the location uses the node count after insertion, as in the source. -/
def addTexNode (g : Graph) (tex_key : String) : Graph × GNode :=
  let n : GNode :=
    { nid := g.nextNodeId, ntype := "TEX_IMAGE", name := tex_key ++ "_texture",
      inputNames := [],
      location := (-400, (0 : Int) - (Int.ofNat (g.nodes.length + 1)) * 50),
      image := none }
  ({ g with nodes := g.nodes ++ [n], nextNodeId := g.nextNodeId + 1 }, n)

/-- Lines 128-132: an existing decoder is a `NORMAL_MAP` node whose name
starts with `tex_key ++ "_"` (`str.startswith`, expressed on the character
data so that it evaluates by kernel reduction). -/
def findNormalMap (g : Graph) (tex_key : String) : Option GNode :=
  g.nodes.find? (fun n =>
    n.ntype == "NORMAL_MAP" && (tex_key ++ "_").data.isPrefixOf n.name.data)

/-- Lines 134-137: `nodes.new(type='ShaderNodeNormalMap')`. -/
def addNormalMapNode (g : Graph) (tex_key : String) (texLoc : Int × Int) : Graph × GNode :=
  let n : GNode :=
    { nid := g.nextNodeId, ntype := "NORMAL_MAP", name := tex_key ++ "_normal_map",
      inputNames := [], location := (-200, texLoc.2), image := none }
  ({ g with nodes := g.nodes ++ [n], nextNodeId := g.nextNodeId + 1 }, n)

/-- `links.new`: an input socket holds one link, so a pre-existing link into
the target socket is dropped and the new link appended. -/
def linkNew (g : Graph) (fromN : Nat) (fromS : String) (toN : Nat) (toS : String) : Graph :=
  { g with links :=
      (g.links.filter (fun l => !(l.toNode == toN && l.toSocket == toS))) ++
      [{ fromNode := fromN, fromSocket := fromS, toNode := toN, toSocket := toS }] }

/-- Lines 108-121: locate the sampler connected to the resolved input, or
create a fresh one. -/
def locateSampler (g : Graph) (pid : Nat) (target tex_key : String) : Graph × GNode :=
  match findConnectedTexNode g pid target with
  | some n => (g, n)
  | none => addTexNode g tex_key

/-- Lines 127-137: locate the role-named decoder node, or create a fresh
one at the sampler-derived location. -/
def locateDecoder (g : Graph) (tex_key : String) (texLoc : Int × Int) : Graph × GNode :=
  match findNormalMap g tex_key with
  | some n => (g, n)
  | none => addNormalMapNode g tex_key texLoc

/-- Lines 108-149: locate or create the sampler node, then wire it — through
a located-or-created `NORMAL_MAP` decoder for the normal role (both links to
the hard-coded `Normal` input), directly to the resolved input otherwise.
Returns the graph and the sampler node.  The source's re-checks of
`target_input in principled_node.inputs` are always true after resolution
succeeded, so the dead `else: return` at lines 147-149 has no counterpart. -/
def connectPhase (g : Graph) (pid : Nat) (target tex_key : String) : Graph × GNode :=
  let gt := locateSampler g pid target tex_key
  if tex_key == "normal" then
    let gn := locateDecoder gt.1 tex_key gt.2.location
    let g2 := linkNew gn.1 gt.2.nid "Color" gn.2.nid "Color"
    (linkNew g2 gn.2.nid "Normal" pid "Normal", gt.2)
  else
    (linkNew gt.1 gt.2.nid "Color" pid target, gt.2)

/-- Line 169: assign the image datablock to the sampler node. -/
def setNodeImage (g : Graph) (tid iidv : Nat) : Graph :=
  { g with nodes := g.nodes.map (fun n =>
      if n.nid == tid then { n with image := some iidv } else n) }

/-- Lines 171-177: mutate the shared image datablock's colorspace tag. -/
def setColorspace (imgs : List Image) (iidv : Nat) (cs : String) : List Image :=
  imgs.map (fun i => if i.iid == iidv then { i with colorspace := cs } else i)

/-- Lines 172-177: `Non-Color` for normal/roughness/specular, `sRGB` otherwise. -/
def colorspaceFor (tex_key : String) : String :=
  if ["normal", "roughness", "specular"].contains tex_key then "Non-Color" else "sRGB"

/-- `replace_texture_in_nodes` (lines 43-188).  A freshly loaded datablock is
created with Blender's usual `sRGB` default, which the source immediately
overwrites in both branches. -/
def replace_texture_in_nodes (fs loadErr : String → Bool) (mat : Material)
    (images : List Image) (nextImgId : Nat)
    (tex_key texture_file_path : String) : BindOut :=
  if !mat.use_nodes then ⟨false, mat, images, nextImgId⟩
  else
    match findPrincipled mat.graph with
    | none => ⟨false, mat, images, nextImgId⟩
    | some pn =>
      match resolveInput tex_key pn.inputNames with
      | none => ⟨false, mat, images, nextImgId⟩
      | some target =>
        let gt := connectPhase mat.graph pn.nid target tex_key
        if fs texture_file_path then
          match images.find? (fun i => i.filepath == texture_file_path) with
          | some img =>
            ⟨true, { mat with graph := setNodeImage gt.1 gt.2.nid img.iid },
              setColorspace images img.iid (colorspaceFor tex_key), nextImgId⟩
          | none =>
            if loadErr texture_file_path then
              ⟨false, { mat with graph := gt.1 }, images, nextImgId⟩
            else
              ⟨true, { mat with graph := setNodeImage gt.1 gt.2.nid nextImgId },
                setColorspace
                  (images ++ [{ iid := nextImgId, filepath := texture_file_path,
                                colorspace := "sRGB" }])
                  nextImgId (colorspaceFor tex_key), nextImgId + 1⟩
        else ⟨false, { mat with graph := gt.1 }, images, nextImgId⟩

/-! ## The material walker (source lines 190-226) -/

structure Obj where
  oname : String
  otype : String
  slots : List (Option Nat)
deriving DecidableEq

/-- `bpy` scene state relevant to the walk: objects whose material slots hold
an index into the material store (Blender slots reference datablocks; the
index realizes the aliasing of one material shared by several slots). -/
structure Scene where
  objects : List Obj
  materials : List Material
  images : List Image
  nextImgId : Nat
deriving DecidableEq

def curtain_objects : List String := ["cur_1", "cur_2"]

/-- The `texture_paths` dict in insertion order (lines 36-41). -/
def texture_paths (dp np rp sp : String) : List (String × String) :=
  [("diffuse", dp), ("normal", np), ("roughness", rp), ("specular", sp)]

structure WalkState where
  materials : List Material
  images : List Image
  nextImgId : Nat
  success_count : Nat
  total_count : Nat
deriving DecidableEq

structure RoleOut where
  mat : Material
  images : List Image
  nextImgId : Nat
  success_count : Nat
  total_count : Nat
deriving DecidableEq

/-- The `for tex_key, tex_path in texture_paths.items()` loop (lines
210-219): one attempt per role; a truthy result increments the success
tally; exceptions are caught per role, and the binder model is total. -/
def roleFold (fs loadErr : String → Bool) :
    List (String × String) → Material → List Image → Nat → Nat → Nat → RoleOut
  | [], mat, images, nid, succ, tot => ⟨mat, images, nid, succ, tot⟩
  | (k, p) :: rest, mat, images, nid, succ, tot =>
    let r := replace_texture_in_nodes fs loadErr mat images nid k p
    roleFold fs loadErr rest r.mat r.images r.nextImgId
      (if r.ok then succ + 1 else succ) (tot + 1)

/-- One material slot (lines 201-221): an empty slot contributes nothing; a
filled slot gets node-based shading enabled and all four roles attempted.
A dangling material index cannot arise in Blender and is treated like an
empty slot. -/
def processSlot (fs loadErr : String → Bool) (paths : List (String × String))
    (st : WalkState) (slot : Option Nat) : WalkState :=
  match slot with
  | none => st
  | some mi =>
    match st.materials[mi]? with
    | none => st
    | some mat0 =>
      let mat1 := if mat0.use_nodes then mat0 else { mat0 with use_nodes := true }
      let r := roleFold fs loadErr paths mat1 st.images st.nextImgId
        st.success_count st.total_count
      { materials := st.materials.set mi r.mat, images := r.images,
        nextImgId := r.nextImgId, success_count := r.success_count,
        total_count := r.total_count }

def slotFold (fs loadErr : String → Bool) (paths : List (String × String)) :
    List (Option Nat) → WalkState → WalkState
  | [], st => st
  | s :: rest, st => slotFold fs loadErr paths rest (processSlot fs loadErr paths st s)

/-- Lines 197-223: look the object up by name; only existing mesh objects
have their slots walked. -/
def processObject (fs loadErr : String → Bool) (paths : List (String × String))
    (objects : List Obj) (st : WalkState) (obj_name : String) : WalkState :=
  match objects.find? (fun o => o.oname == obj_name) with
  | some o => if o.otype == "MESH" then slotFold fs loadErr paths o.slots st else st
  | none => st

def objFold (fs loadErr : String → Bool) (paths : List (String × String))
    (objects : List Obj) : List String → WalkState → WalkState
  | [], st => st
  | n :: rest, st =>
    objFold fs loadErr paths objects rest (processObject fs loadErr paths objects st n)

/-- `apply_textures_to_all_materials` (lines 190-226), returning the final
state; `success_count` and `total_count` are the returned tallies. -/
def apply_textures_to_all_materials (fs loadErr : String → Bool)
    (dp np rp sp : String) (sc : Scene) : WalkState :=
  objFold fs loadErr (texture_paths dp np rp sp) sc.objects curtain_objects
    { materials := sc.materials, images := sc.images, nextImgId := sc.nextImgId,
      success_count := 0, total_count := 0 }

/-! ## Concrete fixtures -/

/-- A Blender-4.x Principled BSDF root exposing the four primary inputs. -/
def principled0 : GNode :=
  { nid := 0, ntype := "BSDF_PRINCIPLED", name := "Principled BSDF",
    inputNames := ["Base Color", "Normal", "Roughness", "Specular IOR Level"],
    location := (0, 0), image := none }

/-- A node-based material holding just the shader root. -/
def mat0 : Material :=
  { mname := "mat0", use_nodes := true,
    graph := { nodes := [principled0], links := [], nextNodeId := 1 } }

/-- First bind of a role against `mat0`, every file present, loads clean. -/
def bindOnce (k p : String) : BindOut :=
  replace_texture_in_nodes (fun _ => true) (fun _ => false) mat0 [] 0 k p

/-- Second bind of the same role with the same path, continuing the state. -/
def bindTwice (k p : String) : BindOut :=
  replace_texture_in_nodes (fun _ => true) (fun _ => false)
    (bindOnce k p).mat (bindOnce k p).images (bindOnce k p).nextImgId k p

def texImageCount (m : Material) : Nat :=
  (m.graph.nodes.filter (fun n => n.ntype == "TEX_IMAGE")).length

def normalMapCount (m : Material) : Nat :=
  (m.graph.nodes.filter (fun n => n.ntype == "NORMAL_MAP")).length

/-- C1 counterexample: binding the Normal role twice with the same file path
does NOT leave exactly one texture-sampler node.  The first bind wires
sampler → decoder → root, so on the second bind the link into the root's
`Normal` input comes from the `NORMAL_MAP` decoder, the `TEX_IMAGE` search
at lines 111-115 finds nothing, and a second sampler node is created: the
graph grows from 3 to 4 nodes and holds two sampler nodes. -/
theorem C1_counterexample :
    texImageCount (bindTwice "normal" "n.png").mat = 2 ∧
    (bindTwice "normal" "n.png").mat.graph.nodes.length =
      (bindOnce "normal" "n.png").mat.graph.nodes.length + 1 := by decide

/-- One mesh object, one slot holding the standard material: the C8 and C10
scenario scene. -/
def scene8 : Scene :=
  { objects := [{ oname := "cur_1", otype := "MESH", slots := [some 0] }],
    materials := [mat0], images := [], nextImgId := 0 }

/-- C8: a missing image file fails that single role only.  With the Normal
path absent and the other three paths present, the walk over one material
still makes all four attempts and tallies 3 successes out of 4; the failing
Normal bind itself returns a falsy result. -/
theorem C8_missing_file_fails_single_role :
    (apply_textures_to_all_materials (fun p => !(p == "n.png")) (fun _ => false)
      "d.png" "n.png" "r.png" "s.png" scene8).success_count = 3 ∧
    (apply_textures_to_all_materials (fun p => !(p == "n.png")) (fun _ => false)
      "d.png" "n.png" "r.png" "s.png" scene8).total_count = 4 ∧
    (replace_texture_in_nodes (fun p => !(p == "n.png")) (fun _ => false)
      mat0 [] 0 "normal" "n.png").ok = false := by decide

/-! ## Attempt counting (C3) -/

/-- A slot contributes attempts iff it holds a material index that resolves
in a store of the given length. -/
def slotNonEmpty (matsLen : Nat) : Option Nat → Bool
  | some mi => decide (mi < matsLen)
  | none => false

/-- `bpy.data.objects.get(obj_name)` filtered by `obj.type == 'MESH'`. -/
def validMesh (objects : List Obj) (obj_name : String) : Option Obj :=
  match objects.find? (fun o => o.oname == obj_name) with
  | some o => if o.otype == "MESH" then some o else none
  | none => none

/-- Number of non-empty material slots an object name contributes to the
walk: zero unless the object exists and is a mesh. -/
def objSlotCount (matsLen : Nat) (objects : List Obj) (obj_name : String) : Nat :=
  match validMesh objects obj_name with
  | some o => (o.slots.filter (slotNonEmpty matsLen)).length
  | none => 0

/-- Total non-empty material slots over the fixed target-object list. -/
def expectedSlots (sc : Scene) : Nat :=
  (curtain_objects.map (objSlotCount sc.materials.length sc.objects)).sum

theorem roleFold_total (fs loadErr : String → Bool) (ps : List (String × String))
    (mat : Material) (images : List Image) (nid succ tot : Nat) :
    (roleFold fs loadErr ps mat images nid succ tot).total_count = tot + ps.length := by
  induction ps generalizing mat images nid succ tot with
  | nil => rfl
  | cons kp rest ih =>
    obtain ⟨k, p⟩ := kp
    show (roleFold fs loadErr rest _ _ _ _ (tot + 1)).total_count = _
    rw [ih, List.length_cons]
    omega

theorem processSlot_total (fs loadErr : String → Bool) (paths : List (String × String))
    (st : WalkState) (slot : Option Nat) :
    (processSlot fs loadErr paths st slot).total_count =
      st.total_count +
        (if slotNonEmpty st.materials.length slot then paths.length else 0) ∧
    (processSlot fs loadErr paths st slot).materials.length = st.materials.length := by
  cases slot with
  | none => exact ⟨by simp [processSlot, slotNonEmpty], rfl⟩
  | some mi =>
    cases h : st.materials[mi]? with
    | none =>
      have hlen : st.materials.length ≤ mi := by
        simpa using List.getElem?_eq_none_iff.mp h
      have hne : slotNonEmpty st.materials.length (some mi) = false := by
        simp [slotNonEmpty]; omega
      refine ⟨?_, ?_⟩ <;> simp [processSlot, h, hne]
    | some mat0 =>
      have hlt : mi < st.materials.length := by
        by_contra hc
        rw [List.getElem?_eq_none_iff.mpr (by omega)] at h
        exact Option.noConfusion h
      have hyes : slotNonEmpty st.materials.length (some mi) = true := by
        simp [slotNonEmpty]; omega
      refine ⟨?_, ?_⟩
      · simp [processSlot, h, hyes, roleFold_total]
      · simp [processSlot, h]

theorem slotFold_total (fs loadErr : String → Bool) (paths : List (String × String))
    (slots : List (Option Nat)) (st : WalkState) :
    (slotFold fs loadErr paths slots st).total_count =
      st.total_count +
        paths.length * (slots.filter (slotNonEmpty st.materials.length)).length ∧
    (slotFold fs loadErr paths slots st).materials.length = st.materials.length := by
  induction slots generalizing st with
  | nil => exact ⟨by simp [slotFold], rfl⟩
  | cons s rest ih =>
    obtain ⟨hpt, hpl⟩ := processSlot_total fs loadErr paths st s
    obtain ⟨iht, ihl⟩ := ih (processSlot fs loadErr paths st s)
    refine ⟨?_, ?_⟩
    · show (slotFold fs loadErr paths rest _).total_count = _
      rw [iht, hpt, hpl]
      cases hs : slotNonEmpty st.materials.length s with
      | true => simp [List.filter_cons, hs, Nat.mul_succ]; omega
      | false => simp [List.filter_cons, hs]
    · show (slotFold fs loadErr paths rest _).materials.length = _
      rw [ihl, hpl]

theorem processObject_total (fs loadErr : String → Bool) (paths : List (String × String))
    (objects : List Obj) (st : WalkState) (obj_name : String) :
    (processObject fs loadErr paths objects st obj_name).total_count =
      st.total_count + paths.length * objSlotCount st.materials.length objects obj_name ∧
    (processObject fs loadErr paths objects st obj_name).materials.length =
      st.materials.length := by
  unfold processObject objSlotCount validMesh
  cases hfind : objects.find? (fun o => o.oname == obj_name) with
  | none => exact ⟨by simp, rfl⟩
  | some o =>
    cases hm : o.otype == "MESH" with
    | true =>
      obtain ⟨ht, hl⟩ := slotFold_total fs loadErr paths o.slots st
      simp only [hm, if_true]
      exact ⟨ht, hl⟩
    | false => simp [hm]

theorem objFold_total (fs loadErr : String → Bool) (paths : List (String × String))
    (objects : List Obj) (names : List String) (st : WalkState) :
    (objFold fs loadErr paths objects names st).total_count =
      st.total_count +
        paths.length * (names.map (objSlotCount st.materials.length objects)).sum ∧
    (objFold fs loadErr paths objects names st).materials.length =
      st.materials.length := by
  induction names generalizing st with
  | nil => exact ⟨by simp [objFold], rfl⟩
  | cons n rest ih =>
    obtain ⟨hpt, hpl⟩ := processObject_total fs loadErr paths objects st n
    obtain ⟨iht, ihl⟩ := ih (processObject fs loadErr paths objects st n)
    refine ⟨?_, ?_⟩
    · show (objFold fs loadErr paths objects rest _).total_count = _
      rw [iht, hpt, hpl, List.map_cons, List.sum_cons, Nat.mul_add]
      omega
    · show (objFold fs loadErr paths objects rest _).materials.length = _
      rw [ihl, hpl]

theorem sum_map_uniform (ns : List String) (f : String → Nat) (g : String → Bool)
    (M : Nat) (h : ∀ n ∈ ns, f n = if g n then M else 0) :
    (ns.map f).sum = (ns.filter g).length * M := by
  induction ns with
  | nil => simp
  | cons n rest ih =>
    have hn := h n (by simp)
    have ih' := ih (fun y hy => h y (by simp [hy]))
    rw [List.map_cons, List.sum_cons, ih', List.filter_cons]
    cases hg : g n with
    | true => simp [hg] at hn; simp [hn, Nat.succ_mul]; omega
    | false => simp [hg] at hn; simp [hn]

/-- C3: for every run of the material walk, the attempt tally equals 4 times
the number of non-empty material slots over the target objects that exist
and are meshes — independently of the file-system and loader oracles that
decide individual success or failure, with empty slots and missing or
non-mesh objects contributing zero attempts.  When every valid target object
has the same number `M` of non-empty slots, this is
(valid objects) × M × 4. -/
theorem C3_attempt_count (fs loadErr : String → Bool) (dp np rp sp : String)
    (sc : Scene) :
    (apply_textures_to_all_materials fs loadErr dp np rp sp sc).total_count =
      4 * expectedSlots sc ∧
    (∀ M : Nat,
      (∀ n ∈ curtain_objects, objSlotCount sc.materials.length sc.objects n =
        if (validMesh sc.objects n).isSome then M else 0) →
      (apply_textures_to_all_materials fs loadErr dp np rp sp sc).total_count =
        (curtain_objects.filter
          (fun n => (validMesh sc.objects n).isSome)).length * M * 4) := by
  have hmain :
      (apply_textures_to_all_materials fs loadErr dp np rp sp sc).total_count =
        4 * expectedSlots sc := by
    unfold apply_textures_to_all_materials
    obtain ⟨ht, _⟩ := objFold_total fs loadErr (texture_paths dp np rp sp) sc.objects
      curtain_objects
      { materials := sc.materials, images := sc.images, nextImgId := sc.nextImgId,
        success_count := 0, total_count := 0 }
    rw [ht]
    simp [texture_paths, expectedSlots]
  refine ⟨hmain, fun M hM => ?_⟩
  rw [hmain]
  unfold expectedSlots
  rw [sum_map_uniform curtain_objects _ (fun n => (validMesh sc.objects n).isSome) M hM]
  ring

/-- A scene with both target meshes present, one non-empty slot each. -/
def scene3 : Scene :=
  { objects := [{ oname := "cur_1", otype := "MESH", slots := [some 0] },
                { oname := "cur_2", otype := "MESH", slots := [some 0] }],
    materials := [mat0], images := [], nextImgId := 0 }

theorem C3_witness :
    (apply_textures_to_all_materials (fun _ => true) (fun _ => false)
      "d.png" "n.png" "r.png" "s.png" scene3).total_count = 4 * expectedSlots scene3 ∧
    (apply_textures_to_all_materials (fun _ => true) (fun _ => false)
      "d.png" "n.png" "r.png" "s.png" scene3).total_count =
      (curtain_objects.filter
        (fun n => (validMesh scene3.objects n).isSome)).length * 1 * 4 := by
  have h := C3_attempt_count (fun _ => true) (fun _ => false)
    "d.png" "n.png" "r.png" "s.png" scene3
  exact ⟨h.1, h.2 1 (by decide)⟩

/-! ## Structural lemmas about the binder (for C7, C9, C10) -/

theorem resolveInput_mapping_ne (k : String) (inputs : List String) (t : String)
    (h : resolveInput k inputs = some t) : input_mapping k ≠ none := by
  intro hn
  simp [resolveInput, hn] at h

theorem colorspaceFor_spec (k : String) (h : input_mapping k ≠ none) :
    colorspaceFor k = if k == "diffuse" then "sRGB" else "Non-Color" := by
  by_cases h1 : k = "diffuse"
  · subst h1; rfl
  · by_cases h2 : k = "normal"
    · subst h2; rfl
    · by_cases h3 : k = "roughness"
      · subst h3; rfl
      · by_cases h4 : k = "specular"
        · subst h4; rfl
        · exfalso
          apply h
          have b1 : (k == "diffuse") = false := beq_eq_false_iff_ne.mpr h1
          have b2 : (k == "normal") = false := beq_eq_false_iff_ne.mpr h2
          have b3 : (k == "roughness") = false := beq_eq_false_iff_ne.mpr h3
          have b4 : (k == "specular") = false := beq_eq_false_iff_ne.mpr h4
          simp [input_mapping, b1, b2, b3, b4]

/-- Case analysis of a successful binder call: success requires node-based
shading, a Principled root, a resolved input and an existing file, and the
result is either the reuse branch (first registry entry with the path) or
the fresh-load branch (no entry, loader clean). -/
theorem replace_ok_shape (fs loadErr : String → Bool) (mat : Material)
    (images : List Image) (nid : Nat) (k p : String)
    (hok : (replace_texture_in_nodes fs loadErr mat images nid k p).ok = true) :
    ∃ pn target,
      mat.use_nodes = true ∧
      findPrincipled mat.graph = some pn ∧
      resolveInput k pn.inputNames = some target ∧
      fs p = true ∧
      ((∃ img, images.find? (fun i => i.filepath == p) = some img ∧
          replace_texture_in_nodes fs loadErr mat images nid k p =
            ⟨true,
             { mat with graph := setNodeImage (connectPhase mat.graph pn.nid target k).1 (connectPhase mat.graph pn.nid target k).2.nid img.iid },
             setColorspace images img.iid (colorspaceFor k), nid⟩) ∨
       (images.find? (fun i => i.filepath == p) = none ∧ loadErr p = false ∧
          replace_texture_in_nodes fs loadErr mat images nid k p =
            ⟨true,
             { mat with graph := setNodeImage (connectPhase mat.graph pn.nid target k).1 (connectPhase mat.graph pn.nid target k).2.nid nid },
             setColorspace
               (images ++ [{ iid := nid, filepath := p, colorspace := "sRGB" }])
               nid (colorspaceFor k), nid + 1⟩)) := by
  cases hu : mat.use_nodes with
  | false => rw [replace_texture_in_nodes] at hok; simp [hu] at hok
  | true =>
    cases hpn : findPrincipled mat.graph with
    | none => rw [replace_texture_in_nodes] at hok; simp [hu, hpn] at hok
    | some pn =>
      cases hres : resolveInput k pn.inputNames with
      | none => rw [replace_texture_in_nodes] at hok; simp [hu, hpn, hres] at hok
      | some target =>
        cases hfs : fs p with
        | false => rw [replace_texture_in_nodes] at hok; simp [hu, hpn, hres, hfs] at hok
        | true =>
          refine ⟨pn, target, rfl, rfl, hres, rfl, ?_⟩
          cases hfind : images.find? (fun i => i.filepath == p) with
          | some img =>
            left
            refine ⟨img, rfl, ?_⟩
            rw [replace_texture_in_nodes]
            simp [hu, hpn, hres, hfs, hfind]
          | none =>
            cases hle : loadErr p with
            | true =>
              rw [replace_texture_in_nodes] at hok
              simp [hu, hpn, hres, hfs, hfind, hle] at hok
            | false =>
              right
              refine ⟨rfl, rfl, ?_⟩
              rw [replace_texture_in_nodes]
              simp [hu, hpn, hres, hfs, hfind, hle]

theorem mem_setColorspace_self (imgs : List Image) (img : Image) (cs : String)
    (hmem : img ∈ imgs) :
    ({ iid := img.iid, filepath := img.filepath, colorspace := cs } : Image) ∈
      setColorspace imgs img.iid cs := by
  unfold setColorspace
  have h := List.mem_map_of_mem
    (fun i => if i.iid == img.iid then { i with colorspace := cs } else i) hmem
  simpa using h

theorem findConnectedTexAux_mem (g : Graph) (pid : Nat) (target : String)
    (ls : List GLink) (n : GNode)
    (h : findConnectedTexAux g pid target ls = some n) :
    n ∈ g.nodes ∧ n.ntype = "TEX_IMAGE" := by
  induction ls with
  | nil => exact absurd h (by simp [findConnectedTexAux])
  | cons l rest ih =>
    unfold findConnectedTexAux at h
    cases hc : (l.toNode == pid && l.toSocket == target) with
    | false =>
      simp only [hc, Bool.false_eq_true, if_false] at h
      exact ih h
    | true =>
      simp only [hc, if_true] at h
      cases hfn : g.findNode l.fromNode with
      | none => rw [hfn] at h; exact ih h
      | some m =>
        rw [hfn] at h
        cases hm : (m.ntype == "TEX_IMAGE") with
        | false =>
          simp only [hm, Bool.false_eq_true, if_false] at h
          exact ih h
        | true =>
          simp only [hm, if_true, Option.some.injEq] at h
          subst h
          exact ⟨List.mem_of_find?_eq_some hfn, eq_of_beq hm⟩

theorem linkNew_nodes (g : Graph) (a : Nat) (b : String) (c : Nat) (d : String) :
    (linkNew g a b c d).nodes = g.nodes := rfl

theorem linkNew_mem (g : Graph) (a : Nat) (b : String) (c : Nat) (d : String) :
    ({ fromNode := a, fromSocket := b, toNode := c, toSocket := d } : GLink) ∈
      (linkNew g a b c d).links :=
  List.mem_append_right _ (by simp)

theorem connectPhase_eq_of_ne_normal (g : Graph) (pid : Nat) (target k : String)
    (hk : (k == "normal") = false) :
    connectPhase g pid target k =
      (linkNew (locateSampler g pid target k).1 (locateSampler g pid target k).2.nid
        "Color" pid target, (locateSampler g pid target k).2) := by
  unfold connectPhase
  simp [hk]

theorem connectPhase_eq_normal (g : Graph) (pid : Nat) (target : String) :
    connectPhase g pid target "normal" =
      (linkNew
        (linkNew (locateDecoder (locateSampler g pid target "normal").1 "normal"
            (locateSampler g pid target "normal").2.location).1
          (locateSampler g pid target "normal").2.nid "Color"
          (locateDecoder (locateSampler g pid target "normal").1 "normal"
            (locateSampler g pid target "normal").2.location).2.nid "Color")
        (locateDecoder (locateSampler g pid target "normal").1 "normal"
          (locateSampler g pid target "normal").2.location).2.nid "Normal" pid "Normal",
       (locateSampler g pid target "normal").2) := rfl

theorem locateSampler_mem (g : Graph) (pid : Nat) (target k : String) :
    (locateSampler g pid target k).2 ∈ (locateSampler g pid target k).1.nodes ∧
    (locateSampler g pid target k).2.ntype = "TEX_IMAGE" := by
  unfold locateSampler
  cases hf : findConnectedTexNode g pid target with
  | some n => exact findConnectedTexAux_mem g pid target g.links n hf
  | none =>
    constructor
    · exact List.mem_append_right _ (List.mem_singleton_self _)
    · rfl

theorem locateSampler_links (g : Graph) (pid : Nat) (target k : String) :
    (locateSampler g pid target k).1.links = g.links := by
  unfold locateSampler
  cases findConnectedTexNode g pid target <;> rfl

theorem locateSampler_cases (g : Graph) (pid : Nat) (target k : String) :
    (findConnectedTexNode g pid target = some (locateSampler g pid target k).2 ∧
      (locateSampler g pid target k).1 = g) ∨
    (findConnectedTexNode g pid target = none ∧
      locateSampler g pid target k = addTexNode g k) := by
  unfold locateSampler
  cases hf : findConnectedTexNode g pid target with
  | some n => exact Or.inl ⟨rfl, rfl⟩
  | none => exact Or.inr ⟨rfl, rfl⟩

theorem locateDecoder_mem (g : Graph) (loc : Int × Int) :
    (locateDecoder g "normal" loc).2 ∈ (locateDecoder g "normal" loc).1.nodes ∧
    (locateDecoder g "normal" loc).2.ntype = "NORMAL_MAP" ∧
    ("normal" ++ "_").data.isPrefixOf (locateDecoder g "normal" loc).2.name.data = true := by
  unfold locateDecoder
  cases hnm : findNormalMap g "normal" with
  | some n =>
    have h1 := List.mem_of_find?_eq_some hnm
    have h2 := List.find?_some hnm
    rw [Bool.and_eq_true] at h2
    exact ⟨h1, eq_of_beq h2.1, h2.2⟩
  | none =>
    refine ⟨List.mem_append_right _ (List.mem_singleton_self _), rfl, ?_⟩
    show ("normal" ++ "_").data.isPrefixOf ("normal" ++ "_normal_map").data = true
    decide

theorem locateDecoder_links (g : Graph) (k : String) (loc : Int × Int) :
    (locateDecoder g k loc).1.links = g.links := by
  unfold locateDecoder
  cases findNormalMap g k <;> rfl

theorem locateDecoder_nodes_mono (g : Graph) (k : String) (loc : Int × Int)
    (n : GNode) (h : n ∈ g.nodes) : n ∈ (locateDecoder g k loc).1.nodes := by
  unfold locateDecoder
  cases findNormalMap g k with
  | some m => exact h
  | none => exact List.mem_append_left _ h

theorem locateDecoder_length_ge (g : Graph) (k : String) (loc : Int × Int) :
    g.nodes.length ≤ (locateDecoder g k loc).1.nodes.length := by
  unfold locateDecoder
  cases findNormalMap g k with
  | some m => exact Nat.le_refl _
  | none => simp [addNormalMapNode]

/-- The sampler node returned by the connect phase is present in the
resulting graph with its id and `TEX_IMAGE` type. -/
theorem connectPhase_sampler (g : Graph) (pid : Nat) (target k : String) :
    ∃ n ∈ (connectPhase g pid target k).1.nodes,
      n.nid = (connectPhase g pid target k).2.nid ∧ n.ntype = "TEX_IMAGE" := by
  obtain ⟨hmem, hty⟩ := locateSampler_mem g pid target k
  cases hk : (k == "normal") with
  | true =>
    have hkeq : k = "normal" := eq_of_beq hk
    subst hkeq
    rw [connectPhase_eq_normal]
    exact ⟨(locateSampler g pid target "normal").2,
      locateDecoder_nodes_mono _ _ _ _ hmem, rfl, hty⟩
  | false =>
    rw [connectPhase_eq_of_ne_normal g pid target k hk]
    exact ⟨(locateSampler g pid target k).2, hmem, rfl, hty⟩

theorem setNodeImage_sampler (g : Graph) (tid iidv : Nat) (n : GNode)
    (hmem : n ∈ g.nodes) (hnid : n.nid = tid) (hty : n.ntype = "TEX_IMAGE") :
    ∃ m ∈ (setNodeImage g tid iidv).nodes, m.ntype = "TEX_IMAGE" ∧ m.image = some iidv := by
  refine ⟨{ n with image := some iidv }, ?_, hty, rfl⟩
  unfold setNodeImage
  have h := List.mem_map_of_mem
    (fun x => if x.nid == tid then { x with image := some iidv } else x) hmem
  simpa [hnid] using h

/-- C7: after any successful bind, the image asset's color-space tag is
determined solely by the role — `sRGB` for the diffuse role, `Non-Color`
for the normal, roughness and specular roles — and the tag is present on a
registry entry for the bound path in the post-bind registry (it is written
after the asset is loaded or reused). -/
theorem C7_colorspace_by_role (fs loadErr : String → Bool) (mat : Material)
    (images : List Image) (nid : Nat) (k p : String)
    (hok : (replace_texture_in_nodes fs loadErr mat images nid k p).ok = true) :
    ∃ img ∈ (replace_texture_in_nodes fs loadErr mat images nid k p).images,
      img.filepath = p ∧
      img.colorspace = (if k == "diffuse" then "sRGB" else "Non-Color") := by
  obtain ⟨pn, target, hu, hpn, hres, hfs, hcase⟩ :=
    replace_ok_shape fs loadErr mat images nid k p hok
  have hcs : colorspaceFor k = if k == "diffuse" then "sRGB" else "Non-Color" :=
    colorspaceFor_spec k (resolveInput_mapping_ne k pn.inputNames target hres)
  rcases hcase with ⟨img, hfind, heq⟩ | ⟨hfind, hle, heq⟩
  · rw [heq]
    have hmem := List.mem_of_find?_eq_some hfind
    have hfp : img.filepath = p := by
      have h := List.find?_some hfind
      simpa using h
    exact ⟨⟨img.iid, img.filepath, colorspaceFor k⟩,
      mem_setColorspace_self images img (colorspaceFor k) hmem, hfp, hcs⟩
  · rw [heq]
    have hmem : ({ iid := nid, filepath := p, colorspace := "sRGB" } : Image) ∈
        images ++ [{ iid := nid, filepath := p, colorspace := "sRGB" }] := by simp
    exact ⟨⟨nid, p, colorspaceFor k⟩,
      mem_setColorspace_self _ ⟨nid, p, "sRGB"⟩ (colorspaceFor k) hmem, rfl, hcs⟩

theorem C7_witness :
    ∃ img ∈ (replace_texture_in_nodes (fun _ => true) (fun _ => false) mat0 [] 0
        "roughness" "r.png").images,
      img.filepath = "r.png" ∧
      img.colorspace = (if "roughness" == "diffuse" then "sRGB" else "Non-Color") :=
  C7_colorspace_by_role (fun _ => true) (fun _ => false) mat0 [] 0
    "roughness" "r.png" (by decide)

/-- C9: within one invocation, a successful bind whose file path already has
a loaded image asset reuses that asset — no fresh id is consumed, the
registry does not grow, and the sampler node ends up holding the existing
asset's id; a fresh load (new id, registry grown by one) happens exactly
when no already-loaded asset has an identical file path. -/
theorem C9_asset_reuse (fs loadErr : String → Bool) (mat : Material)
    (images : List Image) (nid : Nat) (k p : String)
    (hok : (replace_texture_in_nodes fs loadErr mat images nid k p).ok = true) :
    (∃ img, images.find? (fun i => i.filepath == p) = some img ∧
      (replace_texture_in_nodes fs loadErr mat images nid k p).nextImgId = nid ∧
      (replace_texture_in_nodes fs loadErr mat images nid k p).images.length =
        images.length ∧
      ∃ n ∈ (replace_texture_in_nodes fs loadErr mat images nid k p).mat.graph.nodes,
        n.ntype = "TEX_IMAGE" ∧ n.image = some img.iid) ∨
    (images.find? (fun i => i.filepath == p) = none ∧
      (replace_texture_in_nodes fs loadErr mat images nid k p).nextImgId = nid + 1 ∧
      (replace_texture_in_nodes fs loadErr mat images nid k p).images.length =
        images.length + 1 ∧
      ∃ n ∈ (replace_texture_in_nodes fs loadErr mat images nid k p).mat.graph.nodes,
        n.ntype = "TEX_IMAGE" ∧ n.image = some nid) := by
  obtain ⟨pn, target, hu, hpn, hres, hfs, hcase⟩ :=
    replace_ok_shape fs loadErr mat images nid k p hok
  obtain ⟨sm, hsm, hsnid, hsty⟩ := connectPhase_sampler mat.graph pn.nid target k
  rcases hcase with ⟨img, hfind, heq⟩ | ⟨hfind, hle, heq⟩
  · left
    refine ⟨img, hfind, ?_, ?_, ?_⟩
    · rw [heq]
    · rw [heq]; simp [setColorspace]
    · rw [heq]
      exact setNodeImage_sampler (connectPhase mat.graph pn.nid target k).1
        (connectPhase mat.graph pn.nid target k).2.nid img.iid sm hsm hsnid hsty
  · right
    refine ⟨hfind, ?_, ?_, ?_⟩
    · rw [heq]
    · rw [heq]; simp [setColorspace]
    · rw [heq]
      exact setNodeImage_sampler (connectPhase mat.graph pn.nid target k).1
        (connectPhase mat.graph pn.nid target k).2.nid nid sm hsm hsnid hsty

theorem C9_witness :
    (∃ img, ([{ iid := 7, filepath := "r.png", colorspace := "sRGB" }] : List Image).find?
        (fun i => i.filepath == "r.png") = some img ∧
      (replace_texture_in_nodes (fun _ => true) (fun _ => false) mat0
        [{ iid := 7, filepath := "r.png", colorspace := "sRGB" }] 9
        "roughness" "r.png").nextImgId = 9 ∧
      (replace_texture_in_nodes (fun _ => true) (fun _ => false) mat0
        [{ iid := 7, filepath := "r.png", colorspace := "sRGB" }] 9
        "roughness" "r.png").images.length =
        ([{ iid := 7, filepath := "r.png", colorspace := "sRGB" }] : List Image).length ∧
      ∃ n ∈ (replace_texture_in_nodes (fun _ => true) (fun _ => false) mat0
        [{ iid := 7, filepath := "r.png", colorspace := "sRGB" }] 9
        "roughness" "r.png").mat.graph.nodes,
        n.ntype = "TEX_IMAGE" ∧ n.image = some img.iid) ∨
    (([{ iid := 7, filepath := "r.png", colorspace := "sRGB" }] : List Image).find?
        (fun i => i.filepath == "r.png") = none ∧
      (replace_texture_in_nodes (fun _ => true) (fun _ => false) mat0
        [{ iid := 7, filepath := "r.png", colorspace := "sRGB" }] 9
        "roughness" "r.png").nextImgId = 9 + 1 ∧
      (replace_texture_in_nodes (fun _ => true) (fun _ => false) mat0
        [{ iid := 7, filepath := "r.png", colorspace := "sRGB" }] 9
        "roughness" "r.png").images.length =
        ([{ iid := 7, filepath := "r.png", colorspace := "sRGB" }] : List Image).length + 1 ∧
      ∃ n ∈ (replace_texture_in_nodes (fun _ => true) (fun _ => false) mat0
        [{ iid := 7, filepath := "r.png", colorspace := "sRGB" }] 9
        "roughness" "r.png").mat.graph.nodes,
        n.ntype = "TEX_IMAGE" ∧ n.image = some 9) :=
  C9_asset_reuse (fun _ => true) (fun _ => false) mat0
    [{ iid := 7, filepath := "r.png", colorspace := "sRGB" }] 9
    "roughness" "r.png" (by decide)

theorem connectPhase_grows (g : Graph) (pid : Nat) (target k : String)
    (hf : findConnectedTexNode g pid target = none) :
    g.nodes.length < (connectPhase g pid target k).1.nodes.length := by
  have hloc : locateSampler g pid target k = addTexNode g k := by
    unfold locateSampler; rw [hf]
  cases hk : (k == "normal") with
  | true =>
    have hkeq : k = "normal" := eq_of_beq hk
    subst hkeq
    rw [connectPhase_eq_normal, hloc]
    show g.nodes.length <
      (locateDecoder (addTexNode g "normal").1 "normal"
        (addTexNode g "normal").2.location).1.nodes.length
    have h1 : (addTexNode g "normal").1.nodes.length = g.nodes.length + 1 := by
      simp [addTexNode]
    have h2 := locateDecoder_length_ge (addTexNode g "normal").1 "normal"
      (addTexNode g "normal").2.location
    omega
  | false =>
    rw [connectPhase_eq_of_ne_normal g pid target k hk, hloc]
    show g.nodes.length < (addTexNode g k).1.nodes.length
    simp [addTexNode]

theorem connectPhase_root_link (g : Graph) (pid : Nat) (target k : String) :
    ∃ l ∈ (connectPhase g pid target k).1.links,
      l.toNode = pid ∧ l.toSocket = (if k == "normal" then "Normal" else target) := by
  cases hk : (k == "normal") with
  | true =>
    have hkeq : k = "normal" := eq_of_beq hk
    subst hkeq
    rw [connectPhase_eq_normal]
    exact ⟨_, linkNew_mem _ _ _ _ _, rfl, by simp⟩
  | false =>
    rw [connectPhase_eq_of_ne_normal g pid target k hk]
    refine ⟨_, linkNew_mem _ _ _ _ _, rfl, ?_⟩
    simp [hk]

/-- C10: a bind that fails because the image file is missing is not atomic —
the returned state is exactly the connect-phase mutation of the node graph
(sampler and, for the normal role, decoder created or rewired, the link into
the shader root's input overwritten) with the image registry and fresh-id
counter untouched, the image assignment and color-space tag skipped, and a
falsy result.  When no sampler was connected to the resolved input
beforehand, the failing bind has strictly grown the node count, and in every
case the mutated graph carries a link into the shader root's target socket
(`Normal` for the normal role). -/
theorem C10_failed_bind_mutates_graph (fs loadErr : String → Bool) (mat : Material)
    (images : List Image) (nid : Nat) (k p : String) (pn : GNode) (target : String)
    (hu : mat.use_nodes = true)
    (hpn : findPrincipled mat.graph = some pn)
    (hres : resolveInput k pn.inputNames = some target)
    (hfs : fs p = false) :
    replace_texture_in_nodes fs loadErr mat images nid k p =
      ⟨false, { mat with graph := (connectPhase mat.graph pn.nid target k).1 },
        images, nid⟩ ∧
    (findConnectedTexNode mat.graph pn.nid target = none →
      mat.graph.nodes.length < (connectPhase mat.graph pn.nid target k).1.nodes.length) ∧
    ∃ l ∈ (connectPhase mat.graph pn.nid target k).1.links,
      l.toNode = pn.nid ∧ l.toSocket = (if k == "normal" then "Normal" else target) := by
  refine ⟨?_, connectPhase_grows mat.graph pn.nid target k,
    connectPhase_root_link mat.graph pn.nid target k⟩
  rw [replace_texture_in_nodes]
  simp [hu, hpn, hres, hfs]

theorem C10_witness :
    (replace_texture_in_nodes (fun _ => false) (fun _ => false) mat0 [] 0
        "normal" "n.png" =
      ⟨false, { mat0 with graph := (connectPhase mat0.graph principled0.nid "Normal" "normal").1 },
        [], 0⟩ ∧
    (findConnectedTexNode mat0.graph principled0.nid "Normal" = none →
      mat0.graph.nodes.length <
        (connectPhase mat0.graph principled0.nid "Normal" "normal").1.nodes.length) ∧
    ∃ l ∈ (connectPhase mat0.graph principled0.nid "Normal" "normal").1.links,
      l.toNode = principled0.nid ∧
      l.toSocket = (if "normal" == "normal" then "Normal" else "Normal")) :=
  C10_failed_bind_mutates_graph (fun _ => false) (fun _ => false) mat0 [] 0
    "normal" "n.png" principled0 "Normal" rfl (by decide) (by decide) rfl

/-! ## Universal rebind behavior (C1)

Blender node graphs have distinct node identities and a fresh-id supply;
`wfGraph` captures this.  Under it, the second bind of a role is analyzed on
an arbitrary post-bind graph. -/

def wfGraph (g : Graph) : Prop :=
  (∀ n ∈ g.nodes, n.nid < g.nextNodeId) ∧ (g.nodes.map (fun n => n.nid)).Nodup

/-- Per-type node count of a graph (`texImageCount`/`normalMapCount` are the
material-level instances). -/
def ntypeCount (t : String) (g : Graph) : Nat :=
  (g.nodes.filter (fun n => n.ntype == t)).length

theorem imgUpd_ntype (tid iidv : Nat) (x : GNode) :
    (if x.nid == tid then { x with image := some iidv } else x).ntype = x.ntype := by
  by_cases h : (x.nid == tid) = true <;> simp [h]

theorem imgUpd_nid (tid iidv : Nat) (x : GNode) :
    (if x.nid == tid then { x with image := some iidv } else x).nid = x.nid := by
  by_cases h : (x.nid == tid) = true <;> simp [h]

theorem imgUpd_inputNames (tid iidv : Nat) (x : GNode) :
    (if x.nid == tid then { x with image := some iidv } else x).inputNames =
      x.inputNames := by
  by_cases h : (x.nid == tid) = true <;> simp [h]

theorem imgUpd_name (tid iidv : Nat) (x : GNode) :
    (if x.nid == tid then { x with image := some iidv } else x).name = x.name := by
  by_cases h : (x.nid == tid) = true <;> simp [h]

theorem setNodeImage_links (g : Graph) (tid iidv : Nat) :
    (setNodeImage g tid iidv).links = g.links := rfl

theorem findPrincipled_setNodeImage (g : Graph) (tid iidv : Nat) :
    findPrincipled (setNodeImage g tid iidv) =
      (findPrincipled g).map
        (fun x => if x.nid == tid then { x with image := some iidv } else x) := by
  unfold findPrincipled setNodeImage
  rw [List.find?_map]
  have hfun : ((fun n : GNode => n.ntype == "BSDF_PRINCIPLED") ∘
      (fun x => if x.nid == tid then { x with image := some iidv } else x)) =
      (fun n : GNode => n.ntype == "BSDF_PRINCIPLED") := by
    funext x
    show ((if x.nid == tid then { x with image := some iidv } else x).ntype ==
      "BSDF_PRINCIPLED") = (x.ntype == "BSDF_PRINCIPLED")
    rw [imgUpd_ntype]
  rw [hfun]

theorem findNode_setNodeImage (g : Graph) (tid iidv i : Nat) :
    (setNodeImage g tid iidv).findNode i =
      (g.findNode i).map
        (fun x => if x.nid == tid then { x with image := some iidv } else x) := by
  unfold Graph.findNode setNodeImage
  rw [List.find?_map]
  have hfun : ((fun n : GNode => n.nid == i) ∘
      (fun x => if x.nid == tid then { x with image := some iidv } else x)) =
      (fun n : GNode => n.nid == i) := by
    funext x
    show ((if x.nid == tid then { x with image := some iidv } else x).nid == i) =
      (x.nid == i)
    rw [imgUpd_nid]
  rw [hfun]

theorem find?_nid_of_nodup (l : List GNode)
    (hnd : (l.map (fun n => n.nid)).Nodup) (x : GNode) (hx : x ∈ l) :
    l.find? (fun n => n.nid == x.nid) = some x := by
  induction l with
  | nil => cases hx
  | cons a rest ih =>
    rw [List.map_cons, List.nodup_cons] at hnd
    rcases List.mem_cons.mp hx with h | h
    · subst h
      rw [List.find?_cons_of_pos _ (by simp)]
    · have hne : (a.nid == x.nid) = false := by
        apply beq_eq_false_iff_ne.mpr
        intro hEq
        apply hnd.1
        rw [hEq]
        exact List.mem_map_of_mem (fun n => n.nid) h
      rw [List.find?_cons_of_neg _ (by simp [hne])]
      exact ih hnd.2 h

theorem findNode_of_mem_nodup (g : Graph)
    (hnd : (g.nodes.map (fun n => n.nid)).Nodup) (x : GNode) (hx : x ∈ g.nodes) :
    g.findNode x.nid = some x :=
  find?_nid_of_nodup g.nodes hnd x hx

theorem wfGraph_append_fresh (g : Graph) (x : GNode) (hx : x.nid = g.nextNodeId)
    (h : wfGraph g) :
    wfGraph { nodes := g.nodes ++ [x], links := g.links,
              nextNodeId := g.nextNodeId + 1 } := by
  obtain ⟨hb, hnd⟩ := h
  constructor
  · intro n hn
    show n.nid < g.nextNodeId + 1
    rcases List.mem_append.mp hn with hn | hn
    · have := hb n hn
      omega
    · rw [List.mem_singleton.mp hn, hx]
      omega
  · show ((g.nodes ++ [x]).map (fun n => n.nid)).Nodup
    rw [List.map_append, List.nodup_append]
    refine ⟨hnd, List.nodup_singleton _, ?_⟩
    intro a ha hmem
    have ha2 : a = x.nid := by simpa using hmem
    obtain ⟨m, hm, hmn⟩ := List.mem_map.mp ha
    have := hb m hm
    rw [← hmn] at ha2
    omega

theorem wfGraph_addTexNode (g : Graph) (k : String) (h : wfGraph g) :
    wfGraph (addTexNode g k).1 :=
  wfGraph_append_fresh g _ rfl h

theorem wfGraph_addNormalMapNode (g : Graph) (k : String) (loc : Int × Int)
    (h : wfGraph g) : wfGraph (addNormalMapNode g k loc).1 :=
  wfGraph_append_fresh g _ rfl h

theorem wfGraph_linkNew (g : Graph) (a : Nat) (b : String) (c : Nat) (d : String)
    (h : wfGraph g) : wfGraph (linkNew g a b c d) := h

theorem wfGraph_setNodeImage (g : Graph) (tid iidv : Nat) (h : wfGraph g) :
    wfGraph (setNodeImage g tid iidv) := by
  obtain ⟨hb, hnd⟩ := h
  constructor
  · intro n hn
    obtain ⟨m, hm, hmn⟩ := List.mem_map.mp hn
    have := hb m hm
    rw [← hmn, imgUpd_nid]
    exact this
  · show ((g.nodes.map
        (fun x => if x.nid == tid then { x with image := some iidv } else x)).map
          (fun n => n.nid)).Nodup
    rw [List.map_map]
    have hfun : ((fun n : GNode => n.nid) ∘
        (fun x => if x.nid == tid then { x with image := some iidv } else x)) =
        (fun n : GNode => n.nid) := by
      funext x
      exact imgUpd_nid tid iidv x
    rw [hfun]
    exact hnd

theorem locateSampler_wf (g : Graph) (pid : Nat) (target k : String)
    (h : wfGraph g) : wfGraph (locateSampler g pid target k).1 := by
  rcases locateSampler_cases g pid target k with ⟨_, heq⟩ | ⟨_, heq⟩
  · rw [heq]; exact h
  · rw [heq]; exact wfGraph_addTexNode g k h

theorem locateDecoder_wf (g : Graph) (k : String) (loc : Int × Int)
    (h : wfGraph g) : wfGraph (locateDecoder g k loc).1 := by
  unfold locateDecoder
  cases findNormalMap g k with
  | some m => exact h
  | none => exact wfGraph_addNormalMapNode g k loc h

theorem filter_length_map_preserve (f : GNode → GNode) (p : GNode → Bool)
    (l : List GNode) (h : ∀ a, p (f a) = p a) :
    ((l.map f).filter p).length = (l.filter p).length := by
  induction l with
  | nil => rfl
  | cons a rest ih =>
    cases hp : p a with
    | true => simp [List.filter_cons, h a, hp, ih]
    | false => simp [List.filter_cons, h a, hp, ih]

theorem ntypeCount_setNodeImage (t : String) (g : Graph) (tid iidv : Nat) :
    ntypeCount t (setNodeImage g tid iidv) = ntypeCount t g := by
  unfold ntypeCount setNodeImage
  exact filter_length_map_preserve _ _ g.nodes
    (fun a => by rw [imgUpd_ntype])

theorem length_setNodeImage (g : Graph) (tid iidv : Nat) :
    (setNodeImage g tid iidv).nodes.length = g.nodes.length := by
  simp [setNodeImage]

theorem ntypeCount_addTexNode_tex (g : Graph) (k : String) :
    ntypeCount "TEX_IMAGE" (addTexNode g k).1 = ntypeCount "TEX_IMAGE" g + 1 := by
  unfold ntypeCount addTexNode
  rw [List.filter_append]
  simp

theorem ntypeCount_addTexNode_nm (g : Graph) (k : String) :
    ntypeCount "NORMAL_MAP" (addTexNode g k).1 = ntypeCount "NORMAL_MAP" g := by
  unfold ntypeCount addTexNode
  rw [List.filter_append]
  simp

theorem ntypeCount_addNormalMapNode_tex (g : Graph) (k : String) (loc : Int × Int) :
    ntypeCount "TEX_IMAGE" (addNormalMapNode g k loc).1 =
      ntypeCount "TEX_IMAGE" g := by
  unfold ntypeCount addNormalMapNode
  rw [List.filter_append]
  simp

theorem ntypeCount_addNormalMapNode_nm (g : Graph) (k : String) (loc : Int × Int) :
    ntypeCount "NORMAL_MAP" (addNormalMapNode g k loc).1 =
      ntypeCount "NORMAL_MAP" g + 1 := by
  unfold ntypeCount addNormalMapNode
  rw [List.filter_append]
  simp

theorem linkNew_links (g : Graph) (a : Nat) (b : String) (c : Nat) (d : String) :
    (linkNew g a b c d).links =
      (g.links.filter (fun l => !(l.toNode == c && l.toSocket == d))) ++
      [{ fromNode := a, fromSocket := b, toNode := c, toSocket := d }] := rfl

theorem findConnectedTexAux_cons_skip (g : Graph) (pid : Nat) (target : String)
    (l : GLink) (ls : List GLink)
    (hl : (l.toNode == pid && l.toSocket == target) = false) :
    findConnectedTexAux g pid target (l :: ls) =
      findConnectedTexAux g pid target ls := by
  nth_rewrite 1 [findConnectedTexAux]
  simp only [hl, Bool.false_eq_true, if_false]

theorem findConnectedTexAux_append_skip (g : Graph) (pid : Nat) (target : String)
    (ls1 ls2 : List GLink)
    (h : ∀ l ∈ ls1, (l.toNode == pid && l.toSocket == target) = false) :
    findConnectedTexAux g pid target (ls1 ++ ls2) =
      findConnectedTexAux g pid target ls2 := by
  induction ls1 with
  | nil => rfl
  | cons l rest ih =>
    show findConnectedTexAux g pid target (l :: (rest ++ ls2)) = _
    rw [findConnectedTexAux_cons_skip g pid target l _ (h l (by simp))]
    exact ih (fun x hx => h x (by simp [hx]))

theorem findConnectedTexAux_cons_hit (g : Graph) (pid : Nat) (target : String)
    (l : GLink) (ls : List GLink)
    (hl : (l.toNode == pid && l.toSocket == target) = true) :
    findConnectedTexAux g pid target (l :: ls) =
      (match g.findNode l.fromNode with
       | some n => if n.ntype == "TEX_IMAGE" then some n
                   else findConnectedTexAux g pid target ls
       | none => findConnectedTexAux g pid target ls) := by
  nth_rewrite 1 [findConnectedTexAux]
  simp only [hl, if_true]

theorem filter_links_skip (pid : Nat) (target : String) (ls : List GLink) :
    ∀ l ∈ ls.filter (fun l => !(l.toNode == pid && l.toSocket == target)),
      (l.toNode == pid && l.toSocket == target) = false := by
  intro l hl
  have h := (List.mem_filter.mp hl).2
  cases hcond : (l.toNode == pid && l.toSocket == target) with
  | false => rfl
  | true => rw [hcond] at h; exact absurd h (by decide)

/-- On a graph whose only link into `(pid, target)` is the freshly appended
one from node `tid`, the sampler search returns the node registered at
`tid` when it is a `TEX_IMAGE` node. -/
theorem rebind_finds_sampler_core (G : Graph) (pid : Nat) (target : String)
    (tid : Nat) (ls : List GLink) (t : GNode)
    (hlinks : G.links =
      (ls.filter (fun l => !(l.toNode == pid && l.toSocket == target))) ++
      [{ fromNode := tid, fromSocket := "Color", toNode := pid, toSocket := target }])
    (hfind : G.findNode tid = some t) (hty : (t.ntype == "TEX_IMAGE") = true) :
    findConnectedTexNode G pid target = some t := by
  unfold findConnectedTexNode
  rw [hlinks,
    findConnectedTexAux_append_skip G pid target _ _ (filter_links_skip pid target ls),
    findConnectedTexAux_cons_hit G pid target _ _ (by simp)]
  simp [hfind, hty]

/-- Same situation but the appended link comes from a non-sampler node (the
decoder): the search scans past it and finds nothing. -/
theorem rebind_no_sampler_core (G : Graph) (pid : Nat) (target : String)
    (nmid : Nat) (ls : List GLink) (nm : GNode)
    (hlinks : G.links =
      (ls.filter (fun l => !(l.toNode == pid && l.toSocket == target))) ++
      [{ fromNode := nmid, fromSocket := "Normal", toNode := pid, toSocket := target }])
    (hfind : G.findNode nmid = some nm) (hty : (nm.ntype == "TEX_IMAGE") = false) :
    findConnectedTexNode G pid target = none := by
  unfold findConnectedTexNode
  rw [hlinks,
    findConnectedTexAux_append_skip G pid target _ _ (filter_links_skip pid target ls),
    findConnectedTexAux_cons_hit G pid target _ _ (by simp)]
  simp [hfind, hty]
  rfl

/-- After a non-normal bind, the rebind's sampler search on the mutated
graph succeeds: the link appended into the resolved input leads back to the
sampler node, whatever image id was assigned to it. -/
theorem rebind_finds_sampler (g : Graph) (pid : Nat) (target k : String) (iidX : Nat)
    (hwf : wfGraph g) (hk : (k == "normal") = false) :
    ∃ t2, findConnectedTexNode
        (setNodeImage (connectPhase g pid target k).1
          (connectPhase g pid target k).2.nid iidX) pid target = some t2 := by
  obtain ⟨hmem, hty⟩ := locateSampler_mem g pid target k
  have hwfL := locateSampler_wf g pid target k hwf
  rw [connectPhase_eq_of_ne_normal g pid target k hk]
  have h1 : (linkNew (locateSampler g pid target k).1
      (locateSampler g pid target k).2.nid "Color" pid target).findNode
      (locateSampler g pid target k).2.nid = some (locateSampler g pid target k).2 :=
    findNode_of_mem_nodup _ hwfL.2 _ hmem
  have hfind : (setNodeImage (linkNew (locateSampler g pid target k).1
      (locateSampler g pid target k).2.nid "Color" pid target)
      (locateSampler g pid target k).2.nid iidX).findNode
      (locateSampler g pid target k).2.nid =
      some { (locateSampler g pid target k).2 with image := some iidX } := by
    rw [findNode_setNodeImage, h1]
    simp
  refine ⟨{ (locateSampler g pid target k).2 with image := some iidX },
    rebind_finds_sampler_core _ pid target (locateSampler g pid target k).2.nid
      (locateSampler g pid target k).1.links _ ?_ hfind ?_⟩
  · rw [setNodeImage_links, linkNew_links]
  · show ((locateSampler g pid target k).2.ntype == "TEX_IMAGE") = true
    rw [hty]
    decide

/-- After a normal bind, the rebind's sampler search fails (the root's
`Normal` input is fed by the decoder), while the decoder search still
succeeds — whatever image id was assigned to the sampler. -/
theorem rebind_normal_after (g : Graph) (pid : Nat) (iidX : Nat) (hwf : wfGraph g) :
    findConnectedTexNode
      (setNodeImage (connectPhase g pid "Normal" "normal").1
        (connectPhase g pid "Normal" "normal").2.nid iidX) pid "Normal" = none ∧
    ∃ nm2, findNormalMap
      (addTexNode (setNodeImage (connectPhase g pid "Normal" "normal").1
        (connectPhase g pid "Normal" "normal").2.nid iidX) "normal").1 "normal" =
      some nm2 := by
  rw [connectPhase_eq_normal]
  set L1 := (locateSampler g pid "Normal" "normal").1 with hL1
  set L2 := (locateSampler g pid "Normal" "normal").2 with hL2
  set D1 := (locateDecoder L1 "normal" L2.location).1 with hD1
  set D2 := (locateDecoder L1 "normal" L2.location).2 with hD2
  obtain ⟨hDmem, hDty, hDname⟩ := locateDecoder_mem L1 L2.location
  have hwfD : wfGraph D1 := locateDecoder_wf L1 "normal" L2.location
    (locateSampler_wf g pid "Normal" "normal" hwf)
  have h1 : (linkNew (linkNew D1 L2.nid "Color" D2.nid "Color")
      D2.nid "Normal" pid "Normal").findNode D2.nid = some D2 :=
    findNode_of_mem_nodup _ hwfD.2 _ hDmem
  have hfind : (setNodeImage (linkNew (linkNew D1 L2.nid "Color" D2.nid "Color")
      D2.nid "Normal" pid "Normal") L2.nid iidX).findNode D2.nid =
      some (if D2.nid == L2.nid then { D2 with image := some iidX } else D2) := by
    rw [findNode_setNodeImage, h1]
    rfl
  constructor
  · refine rebind_no_sampler_core _ pid "Normal" D2.nid
      (linkNew D1 L2.nid "Color" D2.nid "Color").links _ ?_ hfind ?_
    · rw [setNodeImage_links, linkNew_links]
    · rw [imgUpd_ntype, hDty]
      decide
  · have hmemG : (if D2.nid == L2.nid then { D2 with image := some iidX } else D2) ∈
        (addTexNode (setNodeImage (linkNew (linkNew D1 L2.nid "Color" D2.nid "Color")
          D2.nid "Normal" pid "Normal") L2.nid iidX) "normal").1.nodes := by
      apply List.mem_append_left
      exact List.mem_map_of_mem _ hDmem
    have hsome : (findNormalMap
        (addTexNode (setNodeImage (linkNew (linkNew D1 L2.nid "Color" D2.nid "Color")
          D2.nid "Normal" pid "Normal") L2.nid iidX) "normal").1 "normal").isSome = true := by
      unfold findNormalMap
      apply List.find?_isSome.mpr
      refine ⟨_, hmemG, ?_⟩
      rw [Bool.and_eq_true]
      constructor
      · rw [imgUpd_ntype, hDty]
        decide
      · rw [imgUpd_name]
        exact hDname
    obtain ⟨nm2, hnm2⟩ := Option.isSome_iff_exists.mp hsome
    exact ⟨nm2, hnm2⟩

theorem addTexNode_length (g : Graph) (k : String) :
    (addTexNode g k).1.nodes.length = g.nodes.length + 1 := by
  simp [addTexNode]

theorem addNormalMapNode_length (g : Graph) (k : String) (loc : Int × Int) :
    (addNormalMapNode g k loc).1.nodes.length = g.nodes.length + 1 := by
  simp [addNormalMapNode]

/-- A successful bind leaves the material's graph exactly as the connect
phase built it, with the bound image id written onto the sampler node. -/
theorem replace_ok_graph (fs loadErr : String → Bool) (mat : Material)
    (images : List Image) (nid : Nat) (k p : String)
    (hok : (replace_texture_in_nodes fs loadErr mat images nid k p).ok = true) :
    ∃ pn target iidX,
      mat.use_nodes = true ∧
      findPrincipled mat.graph = some pn ∧
      resolveInput k pn.inputNames = some target ∧
      (replace_texture_in_nodes fs loadErr mat images nid k p).mat =
        { mat with graph := setNodeImage (connectPhase mat.graph pn.nid target k).1 (connectPhase mat.graph pn.nid target k).2.nid iidX } := by
  obtain ⟨pn, target, hu, hpn, hres, hfs, hcase⟩ :=
    replace_ok_shape fs loadErr mat images nid k p hok
  rcases hcase with ⟨img, hfind, heq⟩ | ⟨hfind, hle, heq⟩
  · exact ⟨pn, target, img.iid, hu, hpn, hres, by rw [heq]⟩
  · exact ⟨pn, target, nid, hu, hpn, hres, by rw [heq]⟩

/-- Any binder call that reaches the connect phase returns either the
connect-phase graph itself (failure paths) or that graph with an image id
assigned to the sampler (success paths). -/
theorem replace_graph_cases (fs loadErr : String → Bool) (mat : Material)
    (images : List Image) (nid : Nat) (k p : String) (pn : GNode) (target : String)
    (hu : mat.use_nodes = true)
    (hpn : findPrincipled mat.graph = some pn)
    (hres : resolveInput k pn.inputNames = some target) :
    ((replace_texture_in_nodes fs loadErr mat images nid k p).mat.graph =
        (connectPhase mat.graph pn.nid target k).1) ∨
    (∃ iidY, (replace_texture_in_nodes fs loadErr mat images nid k p).mat.graph =
        setNodeImage (connectPhase mat.graph pn.nid target k).1
          (connectPhase mat.graph pn.nid target k).2.nid iidY) := by
  rw [replace_texture_in_nodes]
  simp only [hu, Bool.not_true, Bool.false_eq_true, if_false, hpn, hres]
  split
  · split
    · right; exact ⟨_, rfl⟩
    · split
      · left; rfl
      · right; exact ⟨_, rfl⟩
  · left; rfl

theorem replace_mat_graph_counts (fs loadErr : String → Bool) (mat : Material)
    (images : List Image) (nid : Nat) (k p : String) (pn : GNode) (target : String)
    (hu : mat.use_nodes = true)
    (hpn : findPrincipled mat.graph = some pn)
    (hres : resolveInput k pn.inputNames = some target) :
    (replace_texture_in_nodes fs loadErr mat images nid k p).mat.graph.nodes.length =
      (connectPhase mat.graph pn.nid target k).1.nodes.length ∧
    ntypeCount "TEX_IMAGE"
        (replace_texture_in_nodes fs loadErr mat images nid k p).mat.graph =
      ntypeCount "TEX_IMAGE" (connectPhase mat.graph pn.nid target k).1 ∧
    ntypeCount "NORMAL_MAP"
        (replace_texture_in_nodes fs loadErr mat images nid k p).mat.graph =
      ntypeCount "NORMAL_MAP" (connectPhase mat.graph pn.nid target k).1 := by
  rcases replace_graph_cases fs loadErr mat images nid k p pn target hu hpn hres with
    h | ⟨iidY, h⟩
  · rw [h]
    exact ⟨rfl, rfl, rfl⟩
  · rw [h]
    exact ⟨length_setNodeImage _ _ _, ntypeCount_setNodeImage _ _ _ _,
      ntypeCount_setNodeImage _ _ _ _⟩

theorem connectPhase_counts_found (g : Graph) (pid : Nat) (target k : String)
    (t2 : GNode) (hk : (k == "normal") = false)
    (hf : findConnectedTexNode g pid target = some t2) :
    (connectPhase g pid target k).1.nodes.length = g.nodes.length ∧
    ntypeCount "TEX_IMAGE" (connectPhase g pid target k).1 =
      ntypeCount "TEX_IMAGE" g ∧
    ntypeCount "NORMAL_MAP" (connectPhase g pid target k).1 =
      ntypeCount "NORMAL_MAP" g := by
  have hloc : locateSampler g pid target k = (g, t2) := by
    unfold locateSampler; rw [hf]
  rw [connectPhase_eq_of_ne_normal g pid target k hk, hloc]
  exact ⟨rfl, rfl, rfl⟩

theorem connectPhase_counts_new (g : Graph) (pid : Nat) (target k : String)
    (hk : (k == "normal") = false)
    (hf : findConnectedTexNode g pid target = none) :
    (connectPhase g pid target k).1.nodes.length = g.nodes.length + 1 ∧
    ntypeCount "TEX_IMAGE" (connectPhase g pid target k).1 =
      ntypeCount "TEX_IMAGE" g + 1 ∧
    ntypeCount "NORMAL_MAP" (connectPhase g pid target k).1 =
      ntypeCount "NORMAL_MAP" g := by
  have hloc : locateSampler g pid target k = addTexNode g k := by
    unfold locateSampler; rw [hf]
  rw [connectPhase_eq_of_ne_normal g pid target k hk, hloc]
  exact ⟨addTexNode_length g k, ntypeCount_addTexNode_tex g k,
    ntypeCount_addTexNode_nm g k⟩

theorem connectPhase_counts_normal_newSampler (g : Graph) (pid : Nat) (nm2 : GNode)
    (hf : findConnectedTexNode g pid "Normal" = none)
    (hnm : findNormalMap (addTexNode g "normal").1 "normal" = some nm2) :
    (connectPhase g pid "Normal" "normal").1.nodes.length = g.nodes.length + 1 ∧
    ntypeCount "TEX_IMAGE" (connectPhase g pid "Normal" "normal").1 =
      ntypeCount "TEX_IMAGE" g + 1 ∧
    ntypeCount "NORMAL_MAP" (connectPhase g pid "Normal" "normal").1 =
      ntypeCount "NORMAL_MAP" g := by
  have hloc : locateSampler g pid "Normal" "normal" = addTexNode g "normal" := by
    unfold locateSampler; rw [hf]
  have hdec : locateDecoder (addTexNode g "normal").1 "normal"
      (addTexNode g "normal").2.location = ((addTexNode g "normal").1, nm2) := by
    unfold locateDecoder; rw [hnm]
  rw [connectPhase_eq_normal, hloc, hdec]
  exact ⟨addTexNode_length g "normal", ntypeCount_addTexNode_tex g "normal",
    ntypeCount_addTexNode_nm g "normal"⟩

theorem connectPhase_counts_normal_allNew (g : Graph) (pid : Nat)
    (hf : findConnectedTexNode g pid "Normal" = none)
    (hnm : findNormalMap (addTexNode g "normal").1 "normal" = none) :
    (connectPhase g pid "Normal" "normal").1.nodes.length = g.nodes.length + 2 ∧
    ntypeCount "TEX_IMAGE" (connectPhase g pid "Normal" "normal").1 =
      ntypeCount "TEX_IMAGE" g + 1 ∧
    ntypeCount "NORMAL_MAP" (connectPhase g pid "Normal" "normal").1 =
      ntypeCount "NORMAL_MAP" g + 1 := by
  have hloc : locateSampler g pid "Normal" "normal" = addTexNode g "normal" := by
    unfold locateSampler; rw [hf]
  have hdec : locateDecoder (addTexNode g "normal").1 "normal"
      (addTexNode g "normal").2.location =
      addNormalMapNode (addTexNode g "normal").1 "normal"
        (addTexNode g "normal").2.location := by
    unfold locateDecoder; rw [hnm]
  rw [connectPhase_eq_normal, hloc, hdec]
  refine ⟨?_, ?_, ?_⟩
  · show (addNormalMapNode (addTexNode g "normal").1 "normal" _).1.nodes.length =
      g.nodes.length + 2
    rw [addNormalMapNode_length, addTexNode_length]
  · show ntypeCount "TEX_IMAGE" (addNormalMapNode (addTexNode g "normal").1 "normal" _).1 =
      ntypeCount "TEX_IMAGE" g + 1
    rw [ntypeCount_addNormalMapNode_tex, ntypeCount_addTexNode_tex]
  · show ntypeCount "NORMAL_MAP" (addNormalMapNode (addTexNode g "normal").1 "normal" _).1 =
      ntypeCount "NORMAL_MAP" g + 1
    rw [ntypeCount_addNormalMapNode_nm, ntypeCount_addTexNode_nm]

theorem findConnectedTexNode_none_of_no_tex (g : Graph) (pid : Nat) (target : String)
    (h : ntypeCount "TEX_IMAGE" g = 0) :
    findConnectedTexNode g pid target = none := by
  cases hf : findConnectedTexNode g pid target with
  | none => rfl
  | some n =>
    exfalso
    obtain ⟨hmem, hty⟩ := findConnectedTexAux_mem g pid target g.links n hf
    unfold ntypeCount at h
    rw [List.length_eq_zero, List.filter_eq_nil_iff] at h
    exact h n hmem (by rw [hty]; decide)

theorem findNormalMap_none_of_no_nm (g : Graph) (k : String)
    (h : ntypeCount "NORMAL_MAP" g = 0) : findNormalMap g k = none := by
  unfold findNormalMap
  rw [List.find?_eq_none]
  intro x hx hcontra
  unfold ntypeCount at h
  rw [List.length_eq_zero, List.filter_eq_nil_iff] at h
  rw [Bool.and_eq_true] at hcontra
  exact h x hx hcontra.1

theorem resolveInput_normal_eq (inputs : List String) (t : String)
    (h : resolveInput "normal" inputs = some t) : t = "Normal" := by
  have h1 : input_mapping "normal" = some "Normal" := rfl
  have h2 : fallback_mapping "normal" = ["Normal"] := rfl
  unfold resolveInput at h
  rw [h1] at h
  cases hc : inputs.contains "Normal" with
  | true =>
    simp only [hc, if_true, Option.some.injEq] at h
    exact h.symm
  | false =>
    simp only [hc, Bool.false_eq_true, if_false, h2] at h
    unfold firstPresent at h
    simp only [hc, Bool.false_eq_true, if_false] at h
    exact absurd h (by unfold firstPresent; simp)

theorem texImageCount_eq (m : Material) :
    texImageCount m = ntypeCount "TEX_IMAGE" m.graph := rfl

theorem normalMapCount_eq (m : Material) :
    normalMapCount m = ntypeCount "NORMAL_MAP" m.graph := rfl

theorem findPrincipled_nodes_append (nodes1 nodes2 : List GNode) (pn : GNode)
    (h : nodes1.find? (fun n => n.ntype == "BSDF_PRINCIPLED") = some pn) :
    (nodes1 ++ nodes2).find? (fun n => n.ntype == "BSDF_PRINCIPLED") = some pn := by
  rw [List.find?_append, h]
  rfl

theorem findPrincipled_locateSampler (g : Graph) (pid : Nat) (target k : String)
    (pn : GNode) (hpn : findPrincipled g = some pn) :
    findPrincipled (locateSampler g pid target k).1 = some pn := by
  rcases locateSampler_cases g pid target k with ⟨_, heq⟩ | ⟨_, heq⟩
  · rw [heq]; exact hpn
  · rw [heq]; exact findPrincipled_nodes_append _ _ _ hpn

theorem findPrincipled_locateDecoder (g : Graph) (k : String) (loc : Int × Int)
    (pn : GNode) (hpn : findPrincipled g = some pn) :
    findPrincipled (locateDecoder g k loc).1 = some pn := by
  unfold locateDecoder
  cases findNormalMap g k with
  | some m => exact hpn
  | none => exact findPrincipled_nodes_append _ _ _ hpn

theorem findPrincipled_connectPhase (g : Graph) (pid : Nat) (target k : String)
    (pn : GNode) (hpn : findPrincipled g = some pn) :
    findPrincipled (connectPhase g pid target k).1 = some pn := by
  cases hk : (k == "normal") with
  | true =>
    have hkeq : k = "normal" := eq_of_beq hk
    subst hkeq
    rw [connectPhase_eq_normal]
    exact findPrincipled_locateDecoder _ _ _ _
      (findPrincipled_locateSampler _ _ _ _ _ hpn)
  | false =>
    rw [connectPhase_eq_of_ne_normal g pid target k hk]
    exact findPrincipled_locateSampler _ _ _ _ _ hpn

theorem findPrincipled_after_bind (g : Graph) (pid : Nat) (target k : String)
    (iidX : Nat) (pn : GNode) (hpn : findPrincipled g = some pn) :
    findPrincipled (setNodeImage (connectPhase g pid target k).1
      (connectPhase g pid target k).2.nid iidX) =
    some (if pn.nid == (connectPhase g pid target k).2.nid
          then { pn with image := some iidX } else pn) := by
  rw [findPrincipled_setNodeImage,
    findPrincipled_connectPhase g pid target k pn hpn]
  rfl

/-- C1 amended, universally: for every well-formed material graph (distinct
node ids, all below the fresh-id counter), every image registry, every file
path and every file-system/loader oracle, after a successful first bind of a
role: rebinding a non-Normal role with the same path reuses the connected
sampler — the node count and the sampler and decoder counts do not grow —
and if the graph started without samplers the role has exactly one sampler
after each bind; rebinding the Normal role reuses the unique decoder but
creates a fresh sampler node each time — the node count grows by one per
rebind — and from a graph with no samplers and no decoders, two binds leave
exactly one decoder and two samplers. -/
theorem C1_rebind_universal (fs loadErr : String → Bool) (mat : Material)
    (images : List Image) (nid : Nat) (k p : String) (r1 r2 : BindOut)
    (hr1 : r1 = replace_texture_in_nodes fs loadErr mat images nid k p)
    (hr2 : r2 = replace_texture_in_nodes fs loadErr r1.mat r1.images r1.nextImgId k p)
    (hwf : wfGraph mat.graph)
    (hok : r1.ok = true) :
    ((k == "normal") = false →
      r2.mat.graph.nodes.length = r1.mat.graph.nodes.length ∧
      texImageCount r2.mat = texImageCount r1.mat ∧
      normalMapCount r2.mat = normalMapCount r1.mat ∧
      (texImageCount mat = 0 →
        texImageCount r1.mat = 1 ∧ texImageCount r2.mat = 1)) ∧
    (k = "normal" →
      r2.mat.graph.nodes.length = r1.mat.graph.nodes.length + 1 ∧
      texImageCount r2.mat = texImageCount r1.mat + 1 ∧
      normalMapCount r2.mat = normalMapCount r1.mat ∧
      (texImageCount mat = 0 → normalMapCount mat = 0 →
        texImageCount r1.mat = 1 ∧ texImageCount r2.mat = 2 ∧
        normalMapCount r1.mat = 1 ∧ normalMapCount r2.mat = 1)) := by
  subst hr1
  subst hr2
  obtain ⟨pn, target, iidX, hu, hpn, hres, hmat1⟩ :=
    replace_ok_graph fs loadErr mat images nid k p hok
  have hG1 : (replace_texture_in_nodes fs loadErr mat images nid k p).mat.graph =
      setNodeImage (connectPhase mat.graph pn.nid target k).1
        (connectPhase mat.graph pn.nid target k).2.nid iidX := by
    rw [hmat1]
  have hu2 : (replace_texture_in_nodes fs loadErr mat images nid k p).mat.use_nodes =
      true := by
    rw [hmat1]; exact hu
  have hpn2 : findPrincipled
      (replace_texture_in_nodes fs loadErr mat images nid k p).mat.graph =
      some (if pn.nid == (connectPhase mat.graph pn.nid target k).2.nid
            then { pn with image := some iidX } else pn) := by
    rw [hG1]
    exact findPrincipled_after_bind mat.graph pn.nid target k iidX pn hpn
  have hnid : (if pn.nid == (connectPhase mat.graph pn.nid target k).2.nid
      then { pn with image := some iidX } else pn).nid = pn.nid :=
    imgUpd_nid _ _ _
  have hres2 : resolveInput k
      (if pn.nid == (connectPhase mat.graph pn.nid target k).2.nid
       then { pn with image := some iidX } else pn).inputNames = some target := by
    rw [imgUpd_inputNames]
    exact hres
  have hcounts2 := replace_mat_graph_counts fs loadErr
    (replace_texture_in_nodes fs loadErr mat images nid k p).mat
    (replace_texture_in_nodes fs loadErr mat images nid k p).images
    (replace_texture_in_nodes fs loadErr mat images nid k p).nextImgId k p
    _ target hu2 hpn2 hres2
  rw [hnid, hG1] at hcounts2
  constructor
  · intro hk
    obtain ⟨t2, hf2⟩ := rebind_finds_sampler mat.graph pn.nid target k iidX hwf hk
    have hcp2 := connectPhase_counts_found
      (setNodeImage (connectPhase mat.graph pn.nid target k).1
        (connectPhase mat.graph pn.nid target k).2.nid iidX)
      pn.nid target k t2 hk hf2
    have hlen : (replace_texture_in_nodes fs loadErr
        (replace_texture_in_nodes fs loadErr mat images nid k p).mat
        (replace_texture_in_nodes fs loadErr mat images nid k p).images
        (replace_texture_in_nodes fs loadErr mat images nid k p).nextImgId
        k p).mat.graph.nodes.length =
        (replace_texture_in_nodes fs loadErr mat images nid k p).mat.graph.nodes.length := by
      rw [hG1]
      exact hcounts2.1.trans hcp2.1
    have htex : texImageCount (replace_texture_in_nodes fs loadErr
        (replace_texture_in_nodes fs loadErr mat images nid k p).mat
        (replace_texture_in_nodes fs loadErr mat images nid k p).images
        (replace_texture_in_nodes fs loadErr mat images nid k p).nextImgId
        k p).mat =
        texImageCount (replace_texture_in_nodes fs loadErr mat images nid k p).mat := by
      rw [texImageCount_eq, texImageCount_eq, hG1]
      exact hcounts2.2.1.trans hcp2.2.1
    have hnm : normalMapCount (replace_texture_in_nodes fs loadErr
        (replace_texture_in_nodes fs loadErr mat images nid k p).mat
        (replace_texture_in_nodes fs loadErr mat images nid k p).images
        (replace_texture_in_nodes fs loadErr mat images nid k p).nextImgId
        k p).mat =
        normalMapCount (replace_texture_in_nodes fs loadErr mat images nid k p).mat := by
      rw [normalMapCount_eq, normalMapCount_eq, hG1]
      exact hcounts2.2.2.trans hcp2.2.2
    refine ⟨hlen, htex, hnm, ?_⟩
    intro h0
    have h0' : ntypeCount "TEX_IMAGE" mat.graph = 0 := h0
    have hf1 := findConnectedTexNode_none_of_no_tex mat.graph pn.nid target h0'
    have hcp1 := connectPhase_counts_new mat.graph pn.nid target k hk hf1
    have htex1 : texImageCount (replace_texture_in_nodes fs loadErr mat images nid k p).mat = 1 := by
      rw [texImageCount_eq, hG1, ntypeCount_setNodeImage, hcp1.2.1, h0']
    exact ⟨htex1, htex.trans htex1⟩
  · intro hk
    subst hk
    have htgt : target = "Normal" := resolveInput_normal_eq pn.inputNames target hres
    subst htgt
    obtain ⟨hnone2, nm2, hnm2⟩ := rebind_normal_after mat.graph pn.nid iidX hwf
    have hcp2 := connectPhase_counts_normal_newSampler
      (setNodeImage (connectPhase mat.graph pn.nid "Normal" "normal").1
        (connectPhase mat.graph pn.nid "Normal" "normal").2.nid iidX)
      pn.nid nm2 hnone2 hnm2
    have hlen : (replace_texture_in_nodes fs loadErr
        (replace_texture_in_nodes fs loadErr mat images nid "normal" p).mat
        (replace_texture_in_nodes fs loadErr mat images nid "normal" p).images
        (replace_texture_in_nodes fs loadErr mat images nid "normal" p).nextImgId
        "normal" p).mat.graph.nodes.length =
        (replace_texture_in_nodes fs loadErr mat images nid "normal" p).mat.graph.nodes.length + 1 := by
      rw [hG1]
      exact hcounts2.1.trans hcp2.1
    have htex : texImageCount (replace_texture_in_nodes fs loadErr
        (replace_texture_in_nodes fs loadErr mat images nid "normal" p).mat
        (replace_texture_in_nodes fs loadErr mat images nid "normal" p).images
        (replace_texture_in_nodes fs loadErr mat images nid "normal" p).nextImgId
        "normal" p).mat =
        texImageCount (replace_texture_in_nodes fs loadErr mat images nid "normal" p).mat + 1 := by
      rw [texImageCount_eq, texImageCount_eq, hG1]
      exact hcounts2.2.1.trans hcp2.2.1
    have hnm : normalMapCount (replace_texture_in_nodes fs loadErr
        (replace_texture_in_nodes fs loadErr mat images nid "normal" p).mat
        (replace_texture_in_nodes fs loadErr mat images nid "normal" p).images
        (replace_texture_in_nodes fs loadErr mat images nid "normal" p).nextImgId
        "normal" p).mat =
        normalMapCount (replace_texture_in_nodes fs loadErr mat images nid "normal" p).mat := by
      rw [normalMapCount_eq, normalMapCount_eq, hG1]
      exact hcounts2.2.2.trans hcp2.2.2
    refine ⟨hlen, htex, hnm, ?_⟩
    intro h0 h0nm
    have h0' : ntypeCount "TEX_IMAGE" mat.graph = 0 := h0
    have h0nm' : ntypeCount "NORMAL_MAP" mat.graph = 0 := h0nm
    have hf1 := findConnectedTexNode_none_of_no_tex mat.graph pn.nid "Normal" h0'
    have hnm1 : findNormalMap (addTexNode mat.graph "normal").1 "normal" = none := by
      apply findNormalMap_none_of_no_nm
      rw [ntypeCount_addTexNode_nm]
      exact h0nm'
    have hcp1 := connectPhase_counts_normal_allNew mat.graph pn.nid hf1 hnm1
    have htex1 : texImageCount
        (replace_texture_in_nodes fs loadErr mat images nid "normal" p).mat = 1 := by
      rw [texImageCount_eq, hG1, ntypeCount_setNodeImage, hcp1.2.1, h0']
    have hnm1c : normalMapCount
        (replace_texture_in_nodes fs loadErr mat images nid "normal" p).mat = 1 := by
      rw [normalMapCount_eq, hG1, ntypeCount_setNodeImage, hcp1.2.2, h0nm']
    refine ⟨htex1, ?_, hnm1c, hnm.trans hnm1c⟩
    rw [htex, htex1]

theorem C1_rebind_universal_witness :
    (bindTwice "roughness" "p.png").mat.graph.nodes.length =
      (bindOnce "roughness" "p.png").mat.graph.nodes.length ∧
    texImageCount (bindTwice "roughness" "p.png").mat =
      texImageCount (bindOnce "roughness" "p.png").mat ∧
    normalMapCount (bindTwice "roughness" "p.png").mat =
      normalMapCount (bindOnce "roughness" "p.png").mat ∧
    (texImageCount mat0 = 0 →
      texImageCount (bindOnce "roughness" "p.png").mat = 1 ∧
      texImageCount (bindTwice "roughness" "p.png").mat = 1) := by
  have hwf : wfGraph mat0.graph := ⟨by decide, by decide⟩
  exact (C1_rebind_universal (fun _ => true) (fun _ => false) mat0 [] 0
    "roughness" "p.png" (bindOnce "roughness" "p.png") (bindTwice "roughness" "p.png")
    rfl rfl hwf (by decide)).1 (by decide)

end BlenderRender
